import Mathlib

/-!
Shallow embedding of the Sage credential-broker core (`src/sage`).

Conventions of the embedding:
* `datetime` timestamps and `date` calendar days are abstract `Nat` values
  (`datetime.utcnow()` is passed in explicitly as a `now` parameter, calendar
  `date.today()` as a `today` parameter); comparison of ISO strings in SQL
  agrees with comparison of the underlying instants, so `Nat` comparison is
  faithful.
* SQLite tables are `List`s of row structures; `SELECT ... fetchone` is
  `List.find?`, an `UPDATE` is a `List.map` that edits the matching rows, and
  `INSERT OR REPLACE` on `access_grants` removes every row that conflicts with
  the primary key or the `UNIQUE(key_id, caller_id)` constraint before
  appending the new row.
* Python dynamic values inside the `permissions` dict are `PVal`
  (an `int`, a non-integral number, or a string); arithmetic comparison of a
  string with `0` raises `TypeError`, which the code under test catches.
* `uuid.uuid4()` id generation is modelled by passing the fresh id explicitly.
* Exceptions are `Except PyErr`; `ValueError` and `RuntimeError` are the two
  exception classes the orchestrator distinguishes.
* The Fernet cipher of `utils/encryption.py` is an external library; it is
  modelled as an abstract pair of functions (`Cipher`), with its authenticated
  round-trip contract taken as a hypothesis where a claim needs it.
* The outbound HTTP call of `proxy_service.make_proxied_call` is external
  I/O and is modelled by a `ProxyOutcome` oracle; the moment the request is
  handed to the transport is recorded as a `.forwarded` event.
-/

/-- A dynamic (Python) value as it can appear in a `permissions` dict:
an `int`, a non-integral numeric value (`float`, embedded exactly as `ℚ`),
or a string. -/
inductive PVal where
  | int (z : ℤ)
  | num (q : ℚ)
  | str (s : String)
deriving Repr, DecidableEq

/-- The two exception classes the orchestrator distinguishes. -/
inductive PyErr where
  | valueError (msg : String)
  | runtimeError (msg : String)
deriving Repr, DecidableEq

/-- One row of the `access_grants` table (`models/access_grant.py`,
`services/authorization_engine.py::_init_database`). -/
structure GrantRow where
  grantId : String
  keyId : String
  callerId : String
  permissions : List (String × PVal)
  createdAt : Nat
  expiresAt : Nat
  isActive : Bool
  grantedBy : String
deriving Repr, DecidableEq

/-- One row of the `stored_keys` table (`models/stored_key.py`,
`services/key_storage.py`).  The encrypted payload is an opaque token. -/
structure KeyRow where
  keyId : String
  ownerId : String
  keyName : String
  encryptedKey : String
  createdAt : Nat
  lastRotated : Nat
  isActive : Bool
  coralSessionId : String
deriving Repr, DecidableEq

/-- One row of the `usage_counters` table (`models/usage_counter.py`,
`services/policy_engine.py`). -/
structure UsageRow where
  keyId : String
  callerId : String
  date : Nat
  callCount : Nat
  totalPayloadSize : Nat
  averageResponseTime : ℚ
  lastReset : Nat
deriving Repr, DecidableEq

/-- One row of the `audit_logs` table (`models/privacy_audit_log.py`,
`services/logging_service.py`). -/
structure LogRow where
  logId : Nat
  timestamp : Nat
  callerId : String
  keyId : String
  action : String
  method : String
  endpoint : String
  payloadSize : Int
  responseTime : ℚ
  responseCode : Int
  errorMessage : Option String
deriving Repr, DecidableEq

/-- `AccessGrant.is_expired`: `datetime.utcnow() > self.expires_at`. -/
def GrantRow.isExpired (g : GrantRow) (now : Nat) : Bool :=
  now > g.expiresAt

/-- `AccessGrant.get_max_calls_per_day`:
`self.permissions.get('max_calls_per_day', 0)`. -/
def GrantRow.getMaxCallsPerDay (g : GrantRow) : PVal :=
  (g.permissions.lookup "max_calls_per_day").getD (PVal.int 0)

/-- Python truthiness test `not s` for a string: true only on the empty
string. -/
def strFalsy (s : String) : Bool := s = ""

/-- Python `not s or not s.strip()`: empty or whitespace-only. -/
def strBlank (s : String) : Bool := s.data.all (fun c => c.isWhitespace)

/-- `listIsPfx p s`: the char list `p` is a leading segment of `s`
(Python `str.startswith`). -/
def listIsPfx : List Char → List Char → Bool
  | [], _ => true
  | _ :: _, [] => false
  | a :: as, b :: bs => a == b && listIsPfx as bs

/-- Python `s.startswith(p)`. -/
def strStartsWith (p s : String) : Bool := listIsPfx p.data s.data

/-- Python `s.upper()` (on the character list). -/
def strUpper (s : String) : String := String.mk (s.data.map Char.toUpper)

namespace AuthEngine

/-- The `SELECT * FROM access_grants WHERE key_id = ? AND caller_id = ?
AND is_active = 1` + `fetchone` used by `check_authorization`/`get_grant`. -/
def findActive (grants : List GrantRow) (kid cid : String) : Option GrantRow :=
  grants.find? (fun r => r.keyId == kid && r.callerId == cid && r.isActive)

/-- `AuthorizationEngine._deactivate_grant`: `UPDATE access_grants SET
is_active = 0 WHERE grant_id = ?`. -/
def deactivateGrant (grants : List GrantRow) (gid : String) : List GrantRow :=
  grants.map (fun r => if r.grantId == gid then { r with isActive := false } else r)

/-- `permissions['max_calls_per_day']` is `isinstance(·, int)` and `> 0`. -/
def isPosInt : Option PVal → Bool
  | some (PVal.int z) => 0 < z
  | _ => false

/-- `AuthorizationEngine.create_grant`: validations in source order, then
`INSERT OR REPLACE INTO access_grants` (which evicts any row conflicting on
the `grant_id` primary key or on `UNIQUE(key_id, caller_id)`). -/
def create_grant (grants : List GrantRow) (kid cid : String)
    (perms : List (String × PVal)) (expiresAt now : Nat) (ownerId : String)
    (freshGid : String) (allowPastExpiry : Bool) :
    Except PyErr (String × List GrantRow) :=
  if strBlank kid then .error (.valueError "Key ID cannot be empty")
  else if strBlank cid then .error (.valueError "Caller ID cannot be empty")
  else if strBlank ownerId then .error (.valueError "Owner ID cannot be empty")
  else if !allowPastExpiry && expiresAt ≤ now then
    .error (.valueError "Expiry time must be in the future")
  else if (perms.lookup "max_calls_per_day").isNone then
    .error (.valueError "Permissions must include max_calls_per_day")
  else if !isPosInt (perms.lookup "max_calls_per_day") then
    .error (.valueError "max_calls_per_day must be a positive integer")
  else
    let g : GrantRow :=
      { grantId := freshGid, keyId := kid, callerId := cid,
        permissions := perms, createdAt := now, expiresAt := expiresAt,
        isActive := true, grantedBy := ownerId }
    let kept := grants.filter
      (fun r => !(r.grantId == freshGid || (r.keyId == kid && r.callerId == cid)))
    .ok (freshGid, kept ++ [g])

/-- `AuthorizationEngine.check_authorization`: false on empty ids, else
look up the active grant for the pair; an expired grant is deactivated as a
side effect (lazy expiry) and the check fails. -/
def check_authorization (grants : List GrantRow) (kid cid : String)
    (now : Nat) : Bool × List GrantRow :=
  if strFalsy kid || strFalsy cid then (false, grants)
  else
    match findActive grants kid cid with
    | none => (false, grants)
    | some g =>
      if g.isExpired now then (false, deactivateGrant grants g.grantId)
      else (true, grants)

/-- `AuthorizationEngine.get_grant`: same query and lazy-expiry side effect,
returning the grant object. -/
def get_grant (grants : List GrantRow) (kid cid : String) (now : Nat) :
    Option GrantRow × List GrantRow :=
  match findActive grants kid cid with
  | none => (none, grants)
  | some g =>
    if g.isExpired now then (none, deactivateGrant grants g.grantId)
    else (some g, grants)

/-- `AuthorizationEngine.revoke_grant`. -/
def revoke_grant (grants : List GrantRow) (gid ownerId : String) :
    Except PyErr (List GrantRow) :=
  if strFalsy gid || strFalsy ownerId then
    .error (.valueError "Grant ID and owner ID cannot be empty")
  else
    match grants.find? (fun r => r.grantId == gid && r.isActive) with
    | none => .error (.valueError ("Grant not found or already inactive: " ++ gid))
    | some r =>
      if r.grantedBy ≠ ownerId then
        .error (.valueError "Access denied: grant not owned by requester")
      else .ok (deactivateGrant grants gid)

/-- `AuthorizationEngine.revoke_grants_for_key`: `UPDATE access_grants SET
is_active = 0 WHERE key_id = ? AND granted_by = ? AND is_active = 1`;
returns the affected-row count. -/
def revoke_grants_for_key (grants : List GrantRow) (kid ownerId : String) :
    Nat × List GrantRow :=
  if strFalsy kid || strFalsy ownerId then (0, grants)
  else
    ((grants.filter
        (fun r => r.keyId == kid && r.grantedBy == ownerId && r.isActive)).length,
     grants.map (fun r =>
        if r.keyId == kid && r.grantedBy == ownerId && r.isActive then
          { r with isActive := false }
        else r))

/-- `AuthorizationEngine.cleanup_expired_grants`: `UPDATE ... SET is_active
= 0 WHERE is_active = 1 AND expires_at < ?`. -/
def cleanup_expired_grants (grants : List GrantRow) (now : Nat) :
    Nat × List GrantRow :=
  ((grants.filter (fun r => r.isActive && r.expiresAt < now)).length,
   grants.map (fun r =>
      if r.isActive && r.expiresAt < now then { r with isActive := false }
      else r))

end AuthEngine

/-- The abstract authenticated cipher behind `utils/encryption.py`
(`EncryptionManager` wraps the external Fernet library; encryption and
decryption with a fixed master key are deterministic functions, and
decryption is fallible: tampered ciphertext raises `InvalidToken`). -/
structure Cipher where
  enc : String → String
  dec : String → Option String

/-- `utils/encryption.py::validate_api_key`: non-empty after strip, length
within 8..512 characters, no control characters. -/
def validate_api_key (s : String) : Bool :=
  !strBlank s && decide (8 ≤ s.length) && decide (s.length ≤ 512) &&
    s.data.all (fun c => decide (32 ≤ c.toNat))

/-- `StoredKey.validate` (`models/stored_key.py`): all string fields and the
ciphertext non-empty (plain Python truthiness, no strip). -/
def storedKeyValid (k : KeyRow) : Bool :=
  !strFalsy k.keyId && !strFalsy k.ownerId && !strFalsy k.keyName &&
    !strFalsy k.encryptedKey && !strFalsy k.coralSessionId

namespace KeyStore

/-- `KeyStorageService.get_key`: `SELECT * FROM stored_keys WHERE key_id = ?`. -/
def get_key (keys : List KeyRow) (kid : String) : Option KeyRow :=
  keys.find? (fun k => k.keyId == kid)

/-- `KeyStorageService.get_keys_by_owner` with `active_only=True`. -/
def get_keys_by_owner_active (keys : List KeyRow) (ownerId : String) : List KeyRow :=
  keys.filter (fun k => k.ownerId == ownerId && k.isActive)

/-- `KeyStorageService.verify_key_ownership`: `SELECT 1 FROM stored_keys
WHERE key_id = ? AND owner_id = ?` — note: no `is_active` condition. -/
def verify_key_ownership (keys : List KeyRow) (kid ownerId : String) : Bool :=
  keys.any (fun k => k.keyId == kid && k.ownerId == ownerId)

/-- `KeyStorageService.store_key`: `stored_key.validate()` raises on an
invalid row; the `INSERT` fails (returns `False`) when the `key_id` primary
key or the `UNIQUE(owner_id, key_name)` constraint is violated. -/
def insert_key (keys : List KeyRow) (row : KeyRow) :
    Except PyErr (Bool × List KeyRow) :=
  if !storedKeyValid row then .error (.valueError "Invalid StoredKey instance")
  else if keys.any (fun k =>
      k.keyId == row.keyId || (k.ownerId == row.ownerId && k.keyName == row.keyName)) then
    .ok (false, keys)
  else .ok (true, keys ++ [row])

/-- `KeyStorageService.deactivate_key`: soft delete; success is
`rowcount > 0`. -/
def deactivate_key (keys : List KeyRow) (kid : String) : Bool × List KeyRow :=
  (keys.any (fun k => k.keyId == kid),
   keys.map (fun k => if k.keyId == kid then { k with isActive := false } else k))

end KeyStore

namespace KeyManager

/-- `KeyManager.store_key`: api-key format check, non-blank parameters,
duplicate-name check among the owner's active keys, encrypt, build the row
(with the supplied fresh uuid and `created_at = last_rotated = now`), insert.
Any exception inside the `try` (including the `validate()` `ValueError` and
a failed insert) is re-raised as `RuntimeError("Key storage failed: ...")`. -/
def store_key (cipher : Cipher) (keys : List KeyRow)
    (keyName apiKey ownerId coralSessionId freshId : String) (now : Nat) :
    Except PyErr (String × List KeyRow) :=
  if !validate_api_key apiKey then .error (.valueError "Invalid API key format")
  else if strBlank keyName then .error (.valueError "Key name cannot be empty")
  else if strBlank ownerId then .error (.valueError "Owner ID cannot be empty")
  else if strBlank coralSessionId then
    .error (.valueError "Coral session ID cannot be empty")
  else if (KeyStore.get_keys_by_owner_active keys ownerId).any
      (fun k => k.keyName == keyName) then
    .error (.valueError ("Key name already exists for owner: " ++ keyName))
  else
    let row : KeyRow :=
      { keyId := freshId, ownerId := ownerId, keyName := keyName,
        encryptedKey := cipher.enc apiKey, createdAt := now,
        lastRotated := now, isActive := true,
        coralSessionId := coralSessionId }
    match KeyStore.insert_key keys row with
    | .error (.valueError m) => .error (.runtimeError ("Key storage failed: " ++ m))
    | .error e => .error e
    | .ok (false, _) =>
      .error (.runtimeError "Key storage failed: Failed to store key in database")
    | .ok (true, keys') => .ok (freshId, keys')

/-- `KeyManager._retrieve_key_for_proxy`: fetch, require active, decrypt;
a decryption failure propagates as `RuntimeError("Key retrieval failed...")`. -/
def retrieve_key_for_proxy (cipher : Cipher) (keys : List KeyRow)
    (kid : String) : Except PyErr String :=
  match KeyStore.get_key keys kid with
  | none => .error (.valueError ("Key not found: " ++ kid))
  | some k =>
    if !k.isActive then .error (.valueError ("Key is inactive: " ++ kid))
    else
      match cipher.dec k.encryptedKey with
      | some s => .ok s
      | none => .error (.runtimeError "Key retrieval failed: InvalidToken")

/-- `KeyManager.verify_key_ownership`: blank owner fails closed, otherwise
delegates to the storage query (active flag ignored). -/
def verify_key_ownership (keys : List KeyRow) (kid ownerId : String) : Bool :=
  if strBlank ownerId then false
  else KeyStore.verify_key_ownership keys kid ownerId

/-- `KeyManager.revoke_key`: ownership check (generic "not found or access
denied"), then soft-delete. -/
def revoke_key (keys : List KeyRow) (kid ownerId : String) :
    Except PyErr (List KeyRow) :=
  if strBlank ownerId then .error (.valueError "Owner ID cannot be empty")
  else if !KeyStore.verify_key_ownership keys kid ownerId then
    .error (.valueError "Key not found or access denied")
  else
    match KeyStore.deactivate_key keys kid with
    | (false, _) => .error (.runtimeError "Failed to deactivate key in database")
    | (true, keys') => .ok keys'

end KeyManager

namespace Policy

/-- `PolicyEngine.get_current_usage`: today's `call_count` for the pair,
`0` when no counter row exists (or on empty ids). -/
def get_current_usage (usage : List UsageRow) (kid cid : String)
    (theDate : Nat) : Nat :=
  if strFalsy kid || strFalsy cid then 0
  else
    match usage.find? (fun r => r.keyId == kid && r.callerId == cid && r.date == theDate) with
    | some r => r.callCount
    | none => 0

/-- The Python comparison `max_calls <= 0` on a dynamic value: comparing a
string with an `int` raises `TypeError` (`none`). -/
def pvalLeZero : PVal → Option Bool
  | PVal.int z => some (decide (z ≤ 0))
  | PVal.num q => some (decide (q ≤ 0))
  | PVal.str _ => none

/-- The Python comparison `current_usage < max_calls`. -/
def pvalNatLt (n : Nat) : PVal → Option Bool
  | PVal.int z => some (decide ((n : ℤ) < z))
  | PVal.num q => some (decide ((n : ℚ) < q))
  | PVal.str _ => none

/-- `PolicyEngine.check_rate_limit`: empty ids deny; a non-positive
`max_calls_per_day` denies; a `TypeError` raised by either comparison is
caught by the blanket handler and denies; otherwise within-limit is
`current_usage < max_calls` (strict). -/
def check_rate_limit (usage : List UsageRow) (kid cid : String)
    (g : GrantRow) (today : Nat) : Bool :=
  if strFalsy kid || strFalsy cid then false
  else
    match pvalLeZero g.getMaxCallsPerDay with
    | none => false
    | some true => false
    | some false =>
      match pvalNatLt (get_current_usage usage kid cid today) g.getMaxCallsPerDay with
      | none => false
      | some b => b

/-- `UsageCounter.increment_usage`: incremental running mean, then bump the
counters. -/
def UsageRow.increment (r : UsageRow) (payloadSize : Nat) (responseTime : ℚ) :
    UsageRow :=
  let avg :=
    if r.callCount = 0 then responseTime
    else (r.averageResponseTime * r.callCount + responseTime) / (r.callCount + 1)
  { r with averageResponseTime := avg,
           callCount := r.callCount + 1,
           totalPayloadSize := r.totalPayloadSize + payloadSize }

/-- `PolicyEngine.increment_usage`: update today's row in place, or lazily
create a fresh zero row for today and increment it. -/
def increment_usage (usage : List UsageRow) (kid cid : String)
    (payloadSize : Nat) (responseTime : ℚ) (today now : Nat) : List UsageRow :=
  if strFalsy kid || strFalsy cid then usage
  else
    if usage.any (fun r => r.keyId == kid && r.callerId == cid && r.date == today) then
      usage.map (fun r =>
        if r.keyId == kid && r.callerId == cid && r.date == today then
          UsageRow.increment r payloadSize responseTime
        else r)
    else
      usage ++ [UsageRow.increment
        { keyId := kid, callerId := cid, date := today, callCount := 0,
          totalPayloadSize := 0, averageResponseTime := 0, lastReset := now }
        payloadSize responseTime]

end Policy

namespace AuditLog

/-- The metadata handed to `LoggingService._create_log_entry`. -/
structure EntryParams where
  callerId : String
  keyId : String
  action : String
  method : String
  endpoint : String
  payloadSize : Int
  responseTime : ℚ
  responseCode : Int
  errorMessage : Option String
deriving Repr, DecidableEq

/-- The validations at the top of `LoggingService._create_log_entry`
(each raises `ValueError` when violated). -/
def entryValid (p : EntryParams) : Bool :=
  !strBlank p.callerId && !strBlank p.keyId && !strBlank p.action &&
    !strBlank p.method && !strBlank p.endpoint &&
    decide (0 ≤ p.payloadSize) && decide (0 ≤ p.responseTime)

/-- `PrivacyAuditLog.create_new` applied to the given parameters, with the
fresh uuid drawn from the id supply and `timestamp = datetime.utcnow()`. -/
def mkRow (p : EntryParams) (lid ts : Nat) : LogRow :=
  { logId := lid, timestamp := ts, callerId := p.callerId, keyId := p.keyId,
    action := p.action, method := p.method, endpoint := p.endpoint,
    payloadSize := p.payloadSize, responseTime := p.responseTime,
    responseCode := p.responseCode, errorMessage := p.errorMessage }

/-- `LoggingService._create_log_entry`: validate, then append the entry to
the append-only `audit_logs` table (the sequence-table insert for
chronological ordering is subsumed by list order). -/
def create_log_entry (logs : List LogRow) (nextLogId : Nat) (p : EntryParams)
    (now : Nat) : Except PyErr (List LogRow × Nat) :=
  if !entryValid p then .error (.valueError "invalid log entry parameters")
  else .ok (logs ++ [mkRow p nextLogId now], nextLogId + 1)

/-- `LoggingService.log_proxy_call`. -/
def proxyCallParams (callerId kid method endpoint : String)
    (payloadSize : Int) (responseTime : ℚ) (responseCode : Int)
    (errorMessage : Option String) : EntryParams :=
  { callerId := callerId, keyId := kid, action := "proxy_call",
    method := method, endpoint := endpoint, payloadSize := payloadSize,
    responseTime := responseTime, responseCode := responseCode,
    errorMessage := errorMessage }

/-- `LoggingService.log_authorization_failed`: action
`authorization_failed`, code 403, zero size/time, the reason as message. -/
def authFailedParams (callerId kid method endpoint reason : String) :
    EntryParams :=
  { callerId := callerId, keyId := kid, action := "authorization_failed",
    method := method, endpoint := endpoint, payloadSize := 0,
    responseTime := 0, responseCode := 403, errorMessage := some reason }

/-- `LoggingService.log_rate_limit_blocked`: action `rate_limit_blocked`,
code 429, message carrying `used/limit`. -/
def rateLimitParams (callerId kid method endpoint : String)
    (currentUsage : Nat) (limitRendered : String) : EntryParams :=
  { callerId := callerId, keyId := kid, action := "rate_limit_blocked",
    method := method, endpoint := endpoint, payloadSize := 0,
    responseTime := 0, responseCode := 429,
    errorMessage :=
      some ("Rate limit exceeded: " ++ toString currentUsage ++ "/" ++
            limitRendered ++ " calls") }

/-- `LoggingService.log_grant_access`: action `grant_access`, endpoint
`/grant/<callee>`, code 200; the payload size is the length of the
JSON-serialised permissions (abstracted by a supplied size). -/
def grantAccessParams (callerId kid grantedTo : String) (permsSize : Int) :
    EntryParams :=
  { callerId := callerId, keyId := kid, action := "grant_access",
    method := "POST", endpoint := "/grant/" ++ grantedTo,
    payloadSize := permsSize, responseTime := 0, responseCode := 200,
    errorMessage := none }

/-- `LoggingService.get_logs_for_key`: limit must be in 1..1000, filter by
key plus the optional caller/action/date-range filters, order newest first,
apply `LIMIT`. -/
def get_logs_for_key (logs : List LogRow) (kid ownerId : String)
    (startDate endDate : Option Nat) (callerId action : Option String)
    (lim : Int) : Except PyErr (List LogRow) :=
  if strFalsy kid || strFalsy ownerId then
    .error (.valueError "Key ID and owner ID cannot be empty")
  else if lim ≤ 0 || 1000 < lim then
    .error (.valueError "Limit must be between 1 and 1000")
  else
    let rows := logs.filter (fun r =>
      r.keyId == kid &&
      (match startDate with | some d => decide (d ≤ r.timestamp) | none => true) &&
      (match endDate with | some d => decide (r.timestamp ≤ d) | none => true) &&
      (match callerId with | some c => strFalsy c || r.callerId == c | none => true) &&
      (match action with | some a => strFalsy a || r.action == a | none => true))
    .ok (((rows.mergeSort (fun a b => b.timestamp ≤ a.timestamp)).take lim.toNat))

end AuditLog

/-- Render a dynamic value into an f-string (for log/error messages). -/
def PVal.render : PVal → String
  | PVal.int z => toString z
  | PVal.num q => toString q
  | PVal.str s => s

/-- `MCPInterface.validate_coral_session`: rejects empty/whitespace-only
session ids and ids that do not start with `coral_`; with no wallet id the
session id itself becomes the caller id. -/
def validate_coral_session (sessionId : String) (walletId : Option String) :
    Except PyErr String :=
  if strFalsy sessionId || strBlank sessionId then
    .error (.valueError "Invalid session ID: empty or None")
  else if !(strStartsWith "coral_" sessionId) then
    .error (.valueError "Invalid session ID format: must start with coral_")
  else .ok (walletId.getD sessionId)

/-- Drop everything up to and including the first `://` of a URL
(`urlparse` scheme/netloc prelude). -/
def afterSchemeSep : List Char → List Char
  | ':' :: '/' :: '/' :: rest => rest
  | _ :: rest => afterSchemeSep rest
  | [] => []

/-- `urlparse(target_url).path`: the part of the URL from the first `/`
after the authority, up to any query or fragment. -/
def urlPath (url : String) : String :=
  String.mk (((afterSchemeSep url.data).dropWhile (fun c => c ≠ '/')).takeWhile
    (fun c => c ≠ '?' && c ≠ '#'))

/-- `parsed_url.path or "/"` as used by `proxy_call` for the audit
`endpoint`. -/
def endpointOf (url : String) : String :=
  if urlPath url = "" then "/" else urlPath url

/-- The `payload` dict handed to `proxy_call`; only `method` is read by the
orchestrator itself (headers and body are consumed by the transport, which
the oracle models). -/
structure Payload where
  method : Option String
deriving Repr, DecidableEq

/-- The outcome of the external HTTP transport
(`ProxyService.make_proxied_call`): the URL fails validation before any
request is sent, or the request is sent and either a response arrives
(status, elapsed milliseconds, serialized request-body size) or the
transport fails (timeout or network error, raised as a client error). -/
inductive ProxyOutcome where
  | ok (status : Int) (respTimeMs : ℚ) (payloadSize : Nat)
  | transportErr (msg : String) (elapsedMs : ℚ)
  | invalidUrl
deriving Repr, DecidableEq

/-- Physical-world sanity of the transport oracle: elapsed times are
non-negative. -/
def ProxyOutcome.wf : ProxyOutcome → Prop
  | ProxyOutcome.ok _ t _ => 0 ≤ t
  | ProxyOutcome.transportErr _ t => 0 ≤ t
  | ProxyOutcome.invalidUrl => True

instance : DecidablePred ProxyOutcome.wf := by
  intro o; cases o <;> simp [ProxyOutcome.wf] <;> infer_instance

/-- An externally visible event of one `proxy_call`: the request was handed
to the transport with the given URL. -/
inductive Event where
  | forwarded (url : String)
deriving Repr, DecidableEq

/-- The whole durable state wired together by `SageMCP`: credential vault,
grant store, usage ledger and audit log (plus the id supply for fresh log
ids). -/
structure SysState where
  keys : List KeyRow
  grants : List GrantRow
  usage : List UsageRow
  logs : List LogRow
  nextLogId : Nat
deriving Repr, DecidableEq

/-- A best-effort audit write: failures are swallowed
(`except Exception: pass` around the logging calls). -/
def tryLog (st : SysState) (p : AuditLog.EntryParams) (now : Nat) : SysState :=
  match AuditLog.create_log_entry st.logs st.nextLogId p now with
  | .ok (logs', n') => { st with logs := logs', nextLogId := n' }
  | .error _ => st

/-- A mandatory audit write (the success-path `log_proxy_call` of
`proxy_call` is not wrapped in a `try`). -/
def mustLog (st : SysState) (p : AuditLog.EntryParams) (now : Nat) :
    Except PyErr SysState :=
  match AuditLog.create_log_entry st.logs st.nextLogId p now with
  | .ok (logs', n') => .ok { st with logs := logs', nextLogId := n' }
  | .error e => .error e

/-- The caller-visible result of a successful `proxy_call` (the returned
dict without the opaque data/headers). -/
structure ProxyResult where
  statusCode : Int
  responseTimeMs : ℚ
deriving Repr, DecidableEq

namespace SageMCP

/-- `len(json.dumps(permissions))`, abstracted: braces plus, per entry, the
quoted name, separators and the rendered value. -/
def permsJsonSize (perms : List (String × PVal)) : Int :=
  ((2 : Nat) + (perms.map (fun p => p.fst.length + (PVal.render p.snd).length + 6)).sum : Nat)

/-- `SageMCP.grant_access`: validate the owner session, verify key
ownership (fail closed), validate the permission shape, create the grant
with `expires_at = now + expiry` hours, then write a best-effort
`grant_access` audit entry and return `True`. -/
def grant_access (st : SysState) (kid callerId : String)
    (perms : List (String × PVal)) (expiry : Nat) (ownerSession : String)
    (freshGid : String) (now : Nat) : Except PyErr Bool × SysState :=
  match validate_coral_session ownerSession none with
  | .error e => (.error e, st)
  | .ok ownerId =>
    if !KeyManager.verify_key_ownership st.keys kid ownerId then
      (.error (.valueError "Key not found or access denied"), st)
    else if (perms.lookup "max_calls_per_day").isNone then
      (.error (.valueError "Permissions must include max_calls_per_day"), st)
    else if !AuthEngine.isPosInt (perms.lookup "max_calls_per_day") then
      (.error (.valueError "max_calls_per_day must be a positive integer"), st)
    else
      match AuthEngine.create_grant st.grants kid callerId perms
          (now + expiry) now ownerId freshGid false with
      | .error (.valueError m) => (.error (.valueError m), st)
      | .error (.runtimeError m) =>
        (.error (.runtimeError ("Failed to grant access: " ++ m)), st)
      | .ok (_, grants') =>
        let st' := tryLog { st with grants := grants' }
          (AuditLog.grantAccessParams ownerId kid callerId (permsJsonSize perms)) now
        (.ok true, st')

/-- `SageMCP.proxy_call` — the critical path, in source order: session
validation, parameter validation, authorization check (lazy expiry),
defensive grant re-fetch, rate-limit check, credential decryption, the
outbound call, usage increment, audit write, response shaping.  Every
denial writes a best-effort audit entry first; an unexpected (non
`ValueError`/`RuntimeError`) exception is logged best-effort with code 500
and re-raised wrapped. -/
def proxy_call (cipher : Cipher) (st : SysState) (kid targetUrl : String)
    (payload : Payload) (callerSession : String) (oracle : ProxyOutcome)
    (now today : Nat) :
    Except PyErr ProxyResult × SysState × List Event :=
  match validate_coral_session callerSession none with
  | .error e => (.error e, st, [])
  | .ok callerId =>
    if strFalsy kid || strFalsy targetUrl then
      (.error (.valueError "key_id and target_url are required"), st, [])
    else
      let endpoint := endpointOf targetUrl
      let rawMethod := payload.method.getD "GET"
      let method := strUpper rawMethod
      let (authed, grants1) := AuthEngine.check_authorization st.grants kid callerId now
      let st1 := { st with grants := grants1 }
      if !authed then
        let st2 := tryLog st1
          (AuditLog.authFailedParams callerId kid method endpoint
            "Access denied - no valid grant") now
        (.error (.runtimeError "Access denied for this key"), st2, [])
      else
        match AuthEngine.get_grant st1.grants kid callerId now with
        | (none, grants2) =>
          (.error (.runtimeError "No valid grant found"),
           { st1 with grants := grants2 }, [])
        | (some grant, grants2) =>
          let st2 := { st1 with grants := grants2 }
          if !Policy.check_rate_limit st2.usage kid callerId grant today then
            let currentUsage := Policy.get_current_usage st2.usage kid callerId today
            let rateLimit := (grant.permissions.lookup "max_calls_per_day").getD (PVal.int 100)
            let st3 := tryLog st2
              (AuditLog.rateLimitParams callerId kid method endpoint
                currentUsage rateLimit.render) now
            (.error (.runtimeError ("Daily rate limit exceeded: " ++
                toString currentUsage ++ "/" ++ rateLimit.render ++ " calls")),
             st3, [])
          else
            match KeyManager.retrieve_key_for_proxy cipher st2.keys kid with
            | .error e => (.error e, st2, [])
            | .ok _apiKey =>
              match oracle with
              | .invalidUrl =>
                (.error (.valueError ("Invalid URL: " ++ targetUrl)), st2, [])
              | .transportErr msg elapsedMs =>
                let st3 := tryLog st2
                  (AuditLog.proxyCallParams callerSession kid rawMethod endpoint
                    0 elapsedMs 500 (some msg)) now
                (.error (.runtimeError ("Proxy call failed: " ++ msg)), st3,
                 [Event.forwarded targetUrl])
              | .ok status respTimeMs payloadSize =>
                let st3 := { st2 with
                  usage := Policy.increment_usage st2.usage kid callerId
                    payloadSize respTimeMs today now }
                match mustLog st3
                    (AuditLog.proxyCallParams callerId kid method endpoint
                      payloadSize respTimeMs status none) now with
                | .error e => (.error e, st3, [Event.forwarded targetUrl])
                | .ok st4 =>
                  (.ok { statusCode := status, responseTimeMs := respTimeMs },
                   st4, [Event.forwarded targetUrl])

/-- `SageMCP.revoke_key`: validate the owner session, revoke the key
(ownership-checked soft delete), cascade-revoke all grants for the key,
write a best-effort audit entry; any exception yields `False`. -/
def revoke_key (st : SysState) (kid ownerSession : String) (now : Nat) :
    Bool × SysState :=
  match validate_coral_session ownerSession none with
  | .error _ => (false, st)
  | .ok ownerId =>
    match KeyManager.revoke_key st.keys kid ownerId with
    | .error _ => (false, st)
    | .ok keys' =>
      let (_, grants') := AuthEngine.revoke_grants_for_key st.grants kid ownerId
      let st' := tryLog { st with keys := keys', grants := grants' }
        (AuditLog.proxyCallParams ownerId kid "DELETE" "/sage/revoke_key"
          0 0 200 none) now
      (true, st')

/-- The `filters` dict of `SageMCP.list_logs` (absent keys are `none`;
a present-but-`None` date behaves like a parse failure). -/
structure Filters where
  callerId : Option String
  action : Option String
  startDate : Option String
  endDate : Option String
  limit : Option PVal
deriving Repr, DecidableEq

/-- The `limit` validation of `SageMCP.list_logs`:
`filters.get('limit', 100)`, reset to 100 unless it is an `int` within
`1..1000`. -/
def effectiveLimit (lim : Option PVal) : Int :=
  match lim with
  | some (PVal.int z) => if z ≤ 0 || 1000 < z then 100 else z
  | some _ => 100
  | none => 100

/-- `SageMCP.list_logs`: validate the owner session, verify key ownership
(fail closed), parse the date filters with the external ISO parser
(`parseDate`; failures are logged and ignored), validate/default the
limit, and query the audit log. -/
def list_logs (st : SysState) (kid : String) (filters : Filters)
    (ownerSession : String) (parseDate : String → Option Nat) :
    Except PyErr (List LogRow) :=
  match validate_coral_session ownerSession none with
  | .error e => .error e
  | .ok ownerId =>
    if !KeyManager.verify_key_ownership st.keys kid ownerId then
      .error (.valueError "Key not found or access denied")
    else
      let startDate := filters.startDate.bind parseDate
      let endDate := filters.endDate.bind parseDate
      match AuditLog.get_logs_for_key st.logs kid ownerId startDate endDate
          filters.callerId filters.action (effectiveLimit filters.limit) with
      | .error (.valueError m) => .error (.valueError m)
      | .error (.runtimeError m) =>
        .error (.runtimeError ("Failed to retrieve logs: " ++ m))
      | .ok rows => .ok rows

end SageMCP

/-!  Specification-side predicates and test harnesses used by the claims. -/

/-- "An active, non-expired grant exists for the pair" (spec §4.3). -/
def hasValidGrant (grants : List GrantRow) (kid cid : String) (now : Nat) : Bool :=
  grants.any (fun r =>
    r.keyId == kid && r.callerId == cid && r.isActive && !(r.isExpired now))

/-- Well-formedness enforced by the `UNIQUE(key_id, caller_id)` constraint
of the `access_grants` table: no two rows share a `(credentialId,
callerId)` pair. -/
def GrantsWf (grants : List GrantRow) : Prop :=
  grants.Pairwise (fun a b => ¬(a.keyId = b.keyId ∧ a.callerId = b.callerId))

/-- Every grant on a stored credential was granted by that credential's
owner (`grant_access` creates grants only after `verify_key_ownership`). -/
def GrantOwnersMatch (st : SysState) : Prop :=
  ∀ g ∈ st.grants, ∀ k ∈ st.keys, g.keyId = k.keyId → g.grantedBy = k.ownerId

/-- One Grant-Store operation, as a relation between the grant table before
and after (`services/authorization_engine.py`). -/
inductive GrantOp : List GrantRow → List GrantRow → Prop where
  | create {g g' : List GrantRow} {kid cid : String}
      {perms : List (String × PVal)} {expiresAt now : Nat}
      {ownerId freshGid : String} {allowPast : Bool} {gid : String}
      (h : AuthEngine.create_grant g kid cid perms expiresAt now ownerId
            freshGid allowPast = .ok (gid, g')) : GrantOp g g'
  | checkAuth {g : List GrantRow} (kid cid : String) (now : Nat) :
      GrantOp g (AuthEngine.check_authorization g kid cid now).2
  | getGrant {g : List GrantRow} (kid cid : String) (now : Nat) :
      GrantOp g (AuthEngine.get_grant g kid cid now).2
  | revokeOne {g g' : List GrantRow} {gid ownerId : String}
      (h : AuthEngine.revoke_grant g gid ownerId = .ok g') : GrantOp g g'
  | revokeForKey {g : List GrantRow} (kid ownerId : String) :
      GrantOp g (AuthEngine.revoke_grants_for_key g kid ownerId).2
  | cleanup {g : List GrantRow} (now : Nat) :
      GrantOp g (AuthEngine.cleanup_expired_grants g now).2
  | deactivate {g : List GrantRow} (gid : String) :
      GrantOp g (AuthEngine.deactivateGrant g gid)

/-- Test harness for the sequential-caller scenario of spec §8: one caller
repeatedly attempts a call; each attempt runs `check_rate_limit` and, when
allowed (the proxied call succeeds), `increment_usage`.  Returns the list
of check outcomes in order. -/
def Policy.rateAttempts (g : GrantRow) (kid cid : String) (today now : Nat) :
    Nat → List UsageRow → List Bool
  | 0, _ => []
  | n + 1, u =>
    let b := Policy.check_rate_limit u kid cid g today
    let u' := if b then Policy.increment_usage u kid cid 0 0 today now else u
    b :: Policy.rateAttempts g kid cid today now n u'

/-- A trivially correct cipher instance for concrete witnesses (the
round-trip contract holds definitionally). -/
def idCipher : Cipher := { enc := fun s => s, dec := fun s => some s }

/-!  Supporting lemmas (shared across claims). -/

lemma validate_coral_session_ok {s : String}
    (h1 : strFalsy s = false) (h2 : strBlank s = false)
    (h3 : strStartsWith "coral_" s = true) :
    validate_coral_session s none = .ok s := by
  simp [validate_coral_session, h1, h2, h3, Option.getD]

lemma check_authorization_true_eq {grants : List GrantRow} {kid cid : String}
    {now : Nat}
    (h : (AuthEngine.check_authorization grants kid cid now).1 = true) :
    AuthEngine.check_authorization grants kid cid now = (true, grants) := by
  unfold AuthEngine.check_authorization at h ⊢
  split at h
  · simp at h
  · rcases hfind : AuthEngine.findActive grants kid cid with _ | g
    · simp [hfind] at h
    · simp only [hfind] at h ⊢
      split at h
      · simp at h
      · simp_all

lemma hasValidGrant_of_check_true {grants : List GrantRow} {kid cid : String}
    {now : Nat}
    (h : (AuthEngine.check_authorization grants kid cid now).1 = true) :
    hasValidGrant grants kid cid now = true := by
  unfold AuthEngine.check_authorization at h
  split at h
  · simp at h
  · rcases hfind : AuthEngine.findActive grants kid cid with _ | g
    · simp [hfind] at h
    · simp only [hfind] at h
      split at h
      · simp at h
      · rename_i hexp
        have hmem := List.mem_of_find?_eq_some hfind
        have hp := List.find?_some hfind
        simp only [Bool.and_eq_true, beq_iff_eq] at hp
        refine (List.any_eq_true).mpr ⟨g, hmem, ?_⟩
        simp only [Bool.and_eq_true, beq_iff_eq, Bool.not_eq_true']
        exact ⟨⟨⟨hp.1.1, hp.1.2⟩, hp.2⟩, by simpa using hexp⟩

lemma check_false_of_not_hasValidGrant {grants : List GrantRow}
    {kid cid : String} {now : Nat}
    (h : hasValidGrant grants kid cid now = false) :
    (AuthEngine.check_authorization grants kid cid now).1 = false := by
  by_contra hc
  rw [Bool.not_eq_false] at hc
  rw [hasValidGrant_of_check_true hc] at h
  exact absurd h (by simp)

lemma get_grant_some_eq {grants : List GrantRow} {kid cid : String}
    {now : Nat} {g : GrantRow}
    (h : (AuthEngine.get_grant grants kid cid now).1 = some g) :
    AuthEngine.get_grant grants kid cid now = (some g, grants) := by
  unfold AuthEngine.get_grant at h ⊢
  rcases hfind : AuthEngine.findActive grants kid cid with _ | g0
  · simp [hfind] at h
  · simp only [hfind] at h ⊢
    split at h
    · simp at h
    · simp_all

lemma tryLog_ok {st : SysState} {p : AuditLog.EntryParams} {now : Nat}
    (h : AuditLog.entryValid p = true) :
    tryLog st p now =
      { st with logs := st.logs ++ [AuditLog.mkRow p st.nextLogId now],
                nextLogId := st.nextLogId + 1 } := by
  simp [tryLog, AuditLog.create_log_entry, h]

lemma mustLog_ok {st : SysState} {p : AuditLog.EntryParams} {now : Nat}
    (h : AuditLog.entryValid p = true) :
    mustLog st p now =
      .ok { st with logs := st.logs ++ [AuditLog.mkRow p st.nextLogId now],
                    nextLogId := st.nextLogId + 1 } := by
  simp [mustLog, AuditLog.create_log_entry, h]

lemma tryLog_keys (st : SysState) (p : AuditLog.EntryParams) (now : Nat) :
    (tryLog st p now).keys = st.keys := by
  unfold tryLog
  rcases h : AuditLog.create_log_entry st.logs st.nextLogId p now with e | pr
  · rfl
  · rfl

lemma tryLog_grants (st : SysState) (p : AuditLog.EntryParams) (now : Nat) :
    (tryLog st p now).grants = st.grants := by
  unfold tryLog
  rcases h : AuditLog.create_log_entry st.logs st.nextLogId p now with e | pr
  · rfl
  · rfl

/-!  Branch equations for `SageMCP.proxy_call`. -/

lemma proxy_call_auth_denied_eq (cipher : Cipher) (st : SysState)
    (kid url : String) (payload : Payload) (cs : String)
    (oracle : ProxyOutcome) (now today : Nat) {G1 : List GrantRow}
    (h1 : strFalsy cs = false) (h2 : strBlank cs = false)
    (h3 : strStartsWith "coral_" cs = true)
    (h4 : strFalsy kid = false) (h5 : strFalsy url = false)
    (hca : AuthEngine.check_authorization st.grants kid cs now = (false, G1)) :
    SageMCP.proxy_call cipher st kid url payload cs oracle now today =
      (.error (.runtimeError "Access denied for this key"),
       tryLog { st with grants := G1 }
         (AuditLog.authFailedParams cs kid (strUpper (payload.method.getD "GET"))
           (endpointOf url) "Access denied - no valid grant") now,
       []) := by
  unfold SageMCP.proxy_call
  rw [validate_coral_session_ok h1 h2 h3]
  simp only [h4, h5, Bool.or_self, Bool.false_eq_true, if_false, hca,
    Bool.not_false, if_true]

lemma proxy_call_no_grant_eq (cipher : Cipher) (st : SysState)
    (kid url : String) (payload : Payload) (cs : String)
    (oracle : ProxyOutcome) (now today : Nat) {G2 : List GrantRow}
    (h1 : strFalsy cs = false) (h2 : strBlank cs = false)
    (h3 : strStartsWith "coral_" cs = true)
    (h4 : strFalsy kid = false) (h5 : strFalsy url = false)
    (hca : AuthEngine.check_authorization st.grants kid cs now = (true, st.grants))
    (hgg : AuthEngine.get_grant st.grants kid cs now = (none, G2)) :
    SageMCP.proxy_call cipher st kid url payload cs oracle now today =
      (.error (.runtimeError "No valid grant found"), { st with grants := G2 }, []) := by
  unfold SageMCP.proxy_call
  rw [validate_coral_session_ok h1 h2 h3]
  simp only [h4, h5, Bool.or_self, Bool.false_eq_true, if_false, hca, Bool.not_true,
    Bool.false_eq_true, if_false, hgg]

lemma proxy_call_rate_limited_eq (cipher : Cipher) (st : SysState)
    (kid url : String) (payload : Payload) (cs : String)
    (oracle : ProxyOutcome) (now today : Nat) {grant : GrantRow}
    (h1 : strFalsy cs = false) (h2 : strBlank cs = false)
    (h3 : strStartsWith "coral_" cs = true)
    (h4 : strFalsy kid = false) (h5 : strFalsy url = false)
    (hca : AuthEngine.check_authorization st.grants kid cs now = (true, st.grants))
    (hgg : AuthEngine.get_grant st.grants kid cs now = (some grant, st.grants))
    (hrl : Policy.check_rate_limit st.usage kid cs grant today = false) :
    SageMCP.proxy_call cipher st kid url payload cs oracle now today =
      (.error (.runtimeError ("Daily rate limit exceeded: " ++
          toString (Policy.get_current_usage st.usage kid cs today) ++ "/" ++
          ((grant.permissions.lookup "max_calls_per_day").getD (PVal.int 100)).render ++
          " calls")),
       tryLog st
         (AuditLog.rateLimitParams cs kid (strUpper (payload.method.getD "GET"))
           (endpointOf url) (Policy.get_current_usage st.usage kid cs today)
           ((grant.permissions.lookup "max_calls_per_day").getD (PVal.int 100)).render) now,
       []) := by
  unfold SageMCP.proxy_call
  rw [validate_coral_session_ok h1 h2 h3]
  simp only [h4, h5, Bool.or_self, Bool.false_eq_true, if_false, hca, Bool.not_true,
    Bool.false_eq_true, if_false, hgg, hrl, Bool.not_false, if_true]

lemma proxy_call_vault_error_eq (cipher : Cipher) (st : SysState)
    (kid url : String) (payload : Payload) (cs : String)
    (oracle : ProxyOutcome) (now today : Nat) {grant : GrantRow} {e : PyErr}
    (h1 : strFalsy cs = false) (h2 : strBlank cs = false)
    (h3 : strStartsWith "coral_" cs = true)
    (h4 : strFalsy kid = false) (h5 : strFalsy url = false)
    (hca : AuthEngine.check_authorization st.grants kid cs now = (true, st.grants))
    (hgg : AuthEngine.get_grant st.grants kid cs now = (some grant, st.grants))
    (hrl : Policy.check_rate_limit st.usage kid cs grant today = true)
    (hrk : KeyManager.retrieve_key_for_proxy cipher st.keys kid = .error e) :
    SageMCP.proxy_call cipher st kid url payload cs oracle now today =
      (.error e, st, []) := by
  unfold SageMCP.proxy_call
  rw [validate_coral_session_ok h1 h2 h3]
  simp only [h4, h5, Bool.or_self, Bool.false_eq_true, if_false, hca, Bool.not_true,
    Bool.false_eq_true, if_false, hgg, hrl, Bool.not_true, Bool.false_eq_true,
    if_false, hrk]

lemma proxy_call_invalid_url_eq (cipher : Cipher) (st : SysState)
    (kid url : String) (payload : Payload) (cs : String) (now today : Nat)
    {grant : GrantRow} {k : String}
    (h1 : strFalsy cs = false) (h2 : strBlank cs = false)
    (h3 : strStartsWith "coral_" cs = true)
    (h4 : strFalsy kid = false) (h5 : strFalsy url = false)
    (hca : AuthEngine.check_authorization st.grants kid cs now = (true, st.grants))
    (hgg : AuthEngine.get_grant st.grants kid cs now = (some grant, st.grants))
    (hrl : Policy.check_rate_limit st.usage kid cs grant today = true)
    (hrk : KeyManager.retrieve_key_for_proxy cipher st.keys kid = .ok k) :
    SageMCP.proxy_call cipher st kid url payload cs ProxyOutcome.invalidUrl now today =
      (.error (.valueError ("Invalid URL: " ++ url)), st, []) := by
  unfold SageMCP.proxy_call
  rw [validate_coral_session_ok h1 h2 h3]
  simp only [h4, h5, Bool.or_self, Bool.false_eq_true, if_false, hca, Bool.not_true,
    Bool.false_eq_true, if_false, hgg, hrl, hrk]

lemma proxy_call_transport_eq (cipher : Cipher) (st : SysState)
    (kid url : String) (payload : Payload) (cs : String) (now today : Nat)
    {grant : GrantRow} {k : String} (msg : String) (t : ℚ)
    (h1 : strFalsy cs = false) (h2 : strBlank cs = false)
    (h3 : strStartsWith "coral_" cs = true)
    (h4 : strFalsy kid = false) (h5 : strFalsy url = false)
    (hca : AuthEngine.check_authorization st.grants kid cs now = (true, st.grants))
    (hgg : AuthEngine.get_grant st.grants kid cs now = (some grant, st.grants))
    (hrl : Policy.check_rate_limit st.usage kid cs grant today = true)
    (hrk : KeyManager.retrieve_key_for_proxy cipher st.keys kid = .ok k) :
    SageMCP.proxy_call cipher st kid url payload cs
        (ProxyOutcome.transportErr msg t) now today =
      (.error (.runtimeError ("Proxy call failed: " ++ msg)),
       tryLog st
         (AuditLog.proxyCallParams cs kid (payload.method.getD "GET")
           (endpointOf url) 0 t 500 (some msg)) now,
       [Event.forwarded url]) := by
  unfold SageMCP.proxy_call
  rw [validate_coral_session_ok h1 h2 h3]
  simp only [h4, h5, Bool.or_self, Bool.false_eq_true, if_false, hca, Bool.not_true,
    Bool.false_eq_true, if_false, hgg, hrl, hrk]

lemma proxy_call_success_eq (cipher : Cipher) (st : SysState)
    (kid url : String) (payload : Payload) (cs : String) (now today : Nat)
    {grant : GrantRow} {k : String} (status : Int) (rt : ℚ) (n : Nat)
    (h1 : strFalsy cs = false) (h2 : strBlank cs = false)
    (h3 : strStartsWith "coral_" cs = true)
    (h4 : strFalsy kid = false) (h5 : strFalsy url = false)
    (hca : AuthEngine.check_authorization st.grants kid cs now = (true, st.grants))
    (hgg : AuthEngine.get_grant st.grants kid cs now = (some grant, st.grants))
    (hrl : Policy.check_rate_limit st.usage kid cs grant today = true)
    (hrk : KeyManager.retrieve_key_for_proxy cipher st.keys kid = .ok k)
    (hval : AuditLog.entryValid
        (AuditLog.proxyCallParams cs kid (strUpper (payload.method.getD "GET"))
          (endpointOf url) n rt status none) = true) :
    SageMCP.proxy_call cipher st kid url payload cs
        (ProxyOutcome.ok status rt n) now today =
      (.ok { statusCode := status, responseTimeMs := rt },
       { st with usage := Policy.increment_usage st.usage kid cs n rt today now,
                 logs := st.logs ++ [AuditLog.mkRow
                   (AuditLog.proxyCallParams cs kid (strUpper (payload.method.getD "GET"))
                     (endpointOf url) n rt status none) st.nextLogId now],
                 nextLogId := st.nextLogId + 1 },
       [Event.forwarded url]) := by
  unfold SageMCP.proxy_call
  rw [validate_coral_session_ok h1 h2 h3]
  simp only [h4, h5, Bool.or_self, Bool.false_eq_true, if_false, hca, Bool.not_true,
    Bool.false_eq_true, if_false, hgg, hrl, hrk, mustLog_ok hval]

/-!  Claim theorems. -/

/-- C1: for every `proxyCall` invocation that reaches the authorization
check (valid session, non-empty `credentialId`/`targetUrl`), if no active,
unexpired grant exists for the `(credentialId, callerId)` pair at the time
of the check then the call raises the "access denied" error and the
outbound request is never forwarded; conversely, a request is handed to the
Proxy Executor only when such a grant existed at the check. -/
theorem claim_C1 (cipher : Cipher) (st : SysState) (kid url : String)
    (payload : Payload) (cs : String) (oracle : ProxyOutcome) (now today : Nat)
    (h1 : strFalsy cs = false) (h2 : strBlank cs = false)
    (h3 : strStartsWith "coral_" cs = true)
    (h4 : strFalsy kid = false) (h5 : strFalsy url = false) :
    (hasValidGrant st.grants kid cs now = false →
      (SageMCP.proxy_call cipher st kid url payload cs oracle now today).1 =
        .error (.runtimeError "Access denied for this key") ∧
      (SageMCP.proxy_call cipher st kid url payload cs oracle now today).2.2 = []) ∧
    (∀ u, Event.forwarded u ∈
        (SageMCP.proxy_call cipher st kid url payload cs oracle now today).2.2 →
      hasValidGrant st.grants kid cs now = true) := by
  constructor
  · intro hng
    have hfa := check_false_of_not_hasValidGrant hng
    rcases hca : AuthEngine.check_authorization st.grants kid cs now with ⟨authed, G1⟩
    have ha : authed = false := by rw [hca] at hfa; exact hfa
    subst ha
    rw [proxy_call_auth_denied_eq cipher st kid url payload cs oracle now today
      h1 h2 h3 h4 h5 hca]
    exact ⟨rfl, rfl⟩
  · intro u hu
    by_contra hnv
    rw [Bool.not_eq_true] at hnv
    have hfa := check_false_of_not_hasValidGrant hnv
    rcases hca : AuthEngine.check_authorization st.grants kid cs now with ⟨authed, G1⟩
    have ha : authed = false := by rw [hca] at hfa; exact hfa
    subst ha
    rw [proxy_call_auth_denied_eq cipher st kid url payload cs oracle now today
      h1 h2 h3 h4 h5 hca] at hu
    simp at hu

/-- An empty system state, used by concrete witnesses. -/
def emptyState : SysState :=
  { keys := [], grants := [], usage := [], logs := [], nextLogId := 0 }

/-- Witness for C1: with no grant in the store, a concrete `proxy_call` is
denied and nothing is forwarded. -/
theorem claim_C1_witness :
    (hasValidGrant emptyState.grants "k1" "coral_c1" 5 = false →
      (SageMCP.proxy_call idCipher emptyState "k1" "http://api.test/v1"
        { method := some "GET" } "coral_c1" (ProxyOutcome.ok 200 1 0) 5 0).1 =
        .error (.runtimeError "Access denied for this key") ∧
      (SageMCP.proxy_call idCipher emptyState "k1" "http://api.test/v1"
        { method := some "GET" } "coral_c1" (ProxyOutcome.ok 200 1 0) 5 0).2.2 = []) ∧
    (∀ u, Event.forwarded u ∈
        (SageMCP.proxy_call idCipher emptyState "k1" "http://api.test/v1"
          { method := some "GET" } "coral_c1" (ProxyOutcome.ok 200 1 0) 5 0).2.2 →
      hasValidGrant emptyState.grants "k1" "coral_c1" 5 = true) :=
  claim_C1 idCipher emptyState "k1" "http://api.test/v1" { method := some "GET" }
    "coral_c1" (ProxyOutcome.ok 200 1 0) 5 0 (by decide) (by decide) (by decide)
    (by decide) (by decide)

/-- C3 (amended): a `proxyCall` that ends in success, authorization denial,
rate-limit denial, or transport failure writes at least one matching audit
entry — `authorization_failed`/403, `rate_limit_blocked`/429, `proxy_call`
with the upstream status, `proxy_call`/500 with the error message — before
returning or raising, **provided** the best-effort audit write itself
passes the log-entry validation (in particular the request method and the
credential id are not blank); a failing audit write is swallowed and the
denial is raised with no entry recorded. -/
theorem claim_C3 (cipher : Cipher) (st : SysState) (kid url : String)
    (payload : Payload) (cs : String) (oracle : ProxyOutcome) (now today : Nat)
    (h1 : strFalsy cs = false) (h2 : strBlank cs = false)
    (h3 : strStartsWith "coral_" cs = true)
    (h4 : strFalsy kid = false) (h5 : strFalsy url = false)
    (hkb : strBlank kid = false)
    (hm : strBlank (strUpper (payload.method.getD "GET")) = false)
    (hmr : strBlank (payload.method.getD "GET") = false)
    (hep : strBlank (endpointOf url) = false)
    (howf : oracle.wf) :
    (((AuthEngine.check_authorization st.grants kid cs now).1 = false →
      (SageMCP.proxy_call cipher st kid url payload cs oracle now today).1 =
        .error (.runtimeError "Access denied for this key") ∧
      ∃ e ∈ (SageMCP.proxy_call cipher st kid url payload cs oracle now
          today).2.1.logs.drop st.logs.length,
        e.action = "authorization_failed" ∧ e.responseCode = 403)) ∧
    (∀ grant : GrantRow,
      (AuthEngine.check_authorization st.grants kid cs now).1 = true →
      (AuthEngine.get_grant st.grants kid cs now).1 = some grant →
      Policy.check_rate_limit st.usage kid cs grant today = false →
      (∃ m, (SageMCP.proxy_call cipher st kid url payload cs oracle now
          today).1 = .error (.runtimeError m)) ∧
      ∃ e ∈ (SageMCP.proxy_call cipher st kid url payload cs oracle now
          today).2.1.logs.drop st.logs.length,
        e.action = "rate_limit_blocked" ∧ e.responseCode = 429) ∧
    (∀ (grant : GrantRow) (msg : String) (t : ℚ),
      (AuthEngine.check_authorization st.grants kid cs now).1 = true →
      (AuthEngine.get_grant st.grants kid cs now).1 = some grant →
      Policy.check_rate_limit st.usage kid cs grant today = true →
      (∃ k, KeyManager.retrieve_key_for_proxy cipher st.keys kid = .ok k) →
      oracle = ProxyOutcome.transportErr msg t →
      (SageMCP.proxy_call cipher st kid url payload cs oracle now today).1 =
        .error (.runtimeError ("Proxy call failed: " ++ msg)) ∧
      ∃ e ∈ (SageMCP.proxy_call cipher st kid url payload cs oracle now
          today).2.1.logs.drop st.logs.length,
        e.action = "proxy_call" ∧ e.responseCode = 500 ∧
        e.errorMessage = some msg) ∧
    (∀ r : ProxyResult,
      (SageMCP.proxy_call cipher st kid url payload cs oracle now today).1 =
        .ok r →
      ∃ e ∈ (SageMCP.proxy_call cipher st kid url payload cs oracle now
          today).2.1.logs.drop st.logs.length,
        e.action = "proxy_call" ∧ e.responseCode = r.statusCode) := by
  refine ⟨?_, ?_, ?_, ?_⟩
  · -- authorization denial
    intro hfalse
    rcases hca : AuthEngine.check_authorization st.grants kid cs now with ⟨authed, G1⟩
    have ha : authed = false := by rw [hca] at hfalse; exact hfalse
    subst ha
    rw [proxy_call_auth_denied_eq cipher st kid url payload cs oracle now today
      h1 h2 h3 h4 h5 hca]
    have hval : AuditLog.entryValid
        (AuditLog.authFailedParams cs kid (strUpper (payload.method.getD "GET"))
          (endpointOf url) "Access denied - no valid grant") = true := by
      simp [AuditLog.entryValid, AuditLog.authFailedParams, h2, hkb, hm, hep]
      decide
    rw [tryLog_ok hval]
    refine ⟨rfl, ?_⟩
    simp only [List.drop_left]
    exact ⟨_, List.mem_singleton.mpr rfl, rfl, rfl⟩
  · -- rate-limit denial
    intro grant htrue hgrant hrl
    have hca := check_authorization_true_eq htrue
    have hgg := get_grant_some_eq hgrant
    rw [proxy_call_rate_limited_eq cipher st kid url payload cs oracle now today
      h1 h2 h3 h4 h5 hca hgg hrl]
    have hval : AuditLog.entryValid
        (AuditLog.rateLimitParams cs kid (strUpper (payload.method.getD "GET"))
          (endpointOf url) (Policy.get_current_usage st.usage kid cs today)
          ((grant.permissions.lookup "max_calls_per_day").getD (PVal.int 100)).render)
        = true := by
      simp [AuditLog.entryValid, AuditLog.rateLimitParams, h2, hkb, hm, hep]
      decide
    rw [tryLog_ok hval]
    refine ⟨⟨_, rfl⟩, ?_⟩
    simp only [List.drop_left]
    exact ⟨_, List.mem_singleton.mpr rfl, rfl, rfl⟩
  · -- transport failure
    intro grant msg t htrue hgrant hrl hkey horacle
    rcases hkey with ⟨k, hrk⟩
    have hca := check_authorization_true_eq htrue
    have hgg := get_grant_some_eq hgrant
    subst horacle
    rw [proxy_call_transport_eq cipher st kid url payload cs now today msg t
      h1 h2 h3 h4 h5 hca hgg hrl hrk]
    have ht : (0 : ℚ) ≤ t := howf
    have hval : AuditLog.entryValid
        (AuditLog.proxyCallParams cs kid (payload.method.getD "GET")
          (endpointOf url) 0 t 500 (some msg)) = true := by
      simp [AuditLog.entryValid, AuditLog.proxyCallParams, h2, hkb, hmr, hep, ht]
      decide
    rw [tryLog_ok hval]
    refine ⟨rfl, ?_⟩
    simp only [List.drop_left]
    exact ⟨_, List.mem_singleton.mpr rfl, rfl, rfl, rfl⟩
  · -- success
    intro r hr
    rcases hca : AuthEngine.check_authorization st.grants kid cs now with ⟨authed, G1⟩
    cases authed with
    | false =>
      rw [proxy_call_auth_denied_eq cipher st kid url payload cs oracle now today
        h1 h2 h3 h4 h5 hca] at hr
      exact absurd hr (by simp)
    | true =>
      have hca' : AuthEngine.check_authorization st.grants kid cs now = (true, st.grants) :=
        check_authorization_true_eq (by rw [hca])
      rcases hgg : AuthEngine.get_grant st.grants kid cs now with ⟨og, G2⟩
      cases og with
      | none =>
        rw [proxy_call_no_grant_eq cipher st kid url payload cs oracle now today
          h1 h2 h3 h4 h5 hca' (by rw [hgg])] at hr
        exact absurd hr (by simp)
      | some grant =>
        have hgg' : AuthEngine.get_grant st.grants kid cs now = (some grant, st.grants) :=
          get_grant_some_eq (by rw [hgg])
        rcases hrl : Policy.check_rate_limit st.usage kid cs grant today with _ | _
        · rw [proxy_call_rate_limited_eq cipher st kid url payload cs oracle now today
            h1 h2 h3 h4 h5 hca' hgg' hrl] at hr
          exact absurd hr (by simp)
        · rcases hrk : KeyManager.retrieve_key_for_proxy cipher st.keys kid with e | k
          · rw [proxy_call_vault_error_eq cipher st kid url payload cs oracle now today
              h1 h2 h3 h4 h5 hca' hgg' hrl hrk] at hr
            exact absurd hr (by simp)
          · cases oracle with
            | invalidUrl =>
              rw [proxy_call_invalid_url_eq cipher st kid url payload cs now today
                h1 h2 h3 h4 h5 hca' hgg' hrl hrk] at hr
              exact absurd hr (by simp)
            | transportErr msg t =>
              rw [proxy_call_transport_eq cipher st kid url payload cs now today msg t
                h1 h2 h3 h4 h5 hca' hgg' hrl hrk] at hr
              exact absurd hr (by simp)
            | ok status rt n =>
              have hrt : (0 : ℚ) ≤ rt := howf
              have hval : AuditLog.entryValid
                  (AuditLog.proxyCallParams cs kid
                    (strUpper (payload.method.getD "GET"))
                    (endpointOf url) n rt status none) = true := by
                simp [AuditLog.entryValid, AuditLog.proxyCallParams, h2, hkb, hm,
                  hep, hrt]
                decide
              rw [proxy_call_success_eq cipher st kid url payload cs now today
                status rt n h1 h2 h3 h4 h5 hca' hgg' hrl hrk hval] at hr ⊢
              have hrr : r = { statusCode := status, responseTimeMs := rt } := by
                simpa using hr.symm
              subst hrr
              simp only [List.drop_left]
              exact ⟨_, List.mem_singleton.mpr rfl, rfl, rfl⟩

/-- Fixture: an active grant for caller `coral_c1` on key `k1`. -/
def wGrant : GrantRow :=
  { grantId := "g1", keyId := "k1", callerId := "coral_c1",
    permissions := [("max_calls_per_day", PVal.int 10)],
    createdAt := 0, expiresAt := 100, isActive := true,
    grantedBy := "coral_o1" }

/-- Fixture: an active stored key `k1` owned by `coral_o1`. -/
def wKey : KeyRow :=
  { keyId := "k1", ownerId := "coral_o1", keyName := "llm-key",
    encryptedKey := "secret-123", createdAt := 0, lastRotated := 0,
    isActive := true, coralSessionId := "coral_o1" }

/-- Fixture: a one-key one-grant system state. -/
def wState : SysState :=
  { keys := [wKey], grants := [wGrant], usage := [], logs := [], nextLogId := 0 }

/-- Witness for C3: a concrete successful `proxy_call` (status 200) writes
a `proxy_call` audit entry carrying the upstream status. -/
theorem claim_C3_witness :
    ∃ e ∈ (SageMCP.proxy_call idCipher wState "k1" "http://api.test/v1"
        { method := some "GET" } "coral_c1" (ProxyOutcome.ok 200 1 0) 5
        0).2.1.logs.drop wState.logs.length,
      e.action = "proxy_call" ∧
      e.responseCode = (200 : Int) :=
  (claim_C3 idCipher wState "k1" "http://api.test/v1" { method := some "GET" }
      "coral_c1" (ProxyOutcome.ok 200 1 0) 5 0 (by decide) (by decide)
      (by decide) (by decide) (by decide) (by decide) (by decide) (by decide)
      (by decide) (by decide)).2.2.2
    { statusCode := 200, responseTimeMs := 1 } (by rfl)

/-- Counterexample to C3 as stated: with a request payload whose `method`
is the empty string, an unauthorized `proxy_call` still ends in the
authorization denial, but the best-effort audit write fails its own
validation and is swallowed — the call raises with **zero** audit entries
written. -/
theorem claim_C3_counterexample :
    (SageMCP.proxy_call idCipher emptyState "k1" "http://api.test/v1"
        { method := some "" } "coral_c1" (ProxyOutcome.ok 200 1 0) 5 0).1 =
      .error (.runtimeError "Access denied for this key") ∧
    (SageMCP.proxy_call idCipher emptyState "k1" "http://api.test/v1"
        { method := some "" } "coral_c1" (ProxyOutcome.ok 200 1 0) 5
        0).2.1.logs = [] :=
  ⟨rfl, rfl⟩

/-- In a pair-unique grant table, two rows sharing a `(keyId, callerId)`
pair are the same row. -/
lemma grantsWf_pair_eq {l : List GrantRow} (h : GrantsWf l) {a b : GrantRow}
    (ha : a ∈ l) (hb : b ∈ l) (hk : a.keyId = b.keyId)
    (hc : a.callerId = b.callerId) : a = b := by
  by_contra hne
  have hsym : Symmetric (fun x y : GrantRow =>
      ¬(x.keyId = y.keyId ∧ x.callerId = y.callerId)) := by
    intro x y hxy hcon
    exact hxy ⟨hcon.1.symm, hcon.2.symm⟩
  exact (List.Pairwise.forall hsym h ha hb hne) ⟨hk, hc⟩

lemma hasValidGrant_iff {grants : List GrantRow} {kid cid : String} {now : Nat} :
    hasValidGrant grants kid cid now = true ↔
      ∃ r ∈ grants, r.keyId = kid ∧ r.callerId = cid ∧ r.isActive = true ∧
        now ≤ r.expiresAt := by
  simp only [hasValidGrant, List.any_eq_true, Bool.and_eq_true, beq_iff_eq,
    Bool.not_eq_true', GrantRow.isExpired]
  constructor
  · rintro ⟨r, hr, ⟨⟨⟨h1, h2⟩, h3⟩, h4⟩⟩
    exact ⟨r, hr, h1, h2, h3, by simpa [Nat.not_lt] using of_decide_eq_false h4⟩
  · rintro ⟨r, hr, h1, h2, h3, h4⟩
    exact ⟨r, hr, ⟨⟨⟨h1, h2⟩, h3⟩, decide_eq_false (by omega)⟩⟩

/-- C6: with non-empty ids and a pair-unique grant table,
`checkAuthorized` succeeds iff an active grant for the pair exists whose
expiry has not passed (authorized at `expiresAt` itself, unauthorized
strictly after); and whenever it meets an active grant whose expiry has
passed, it returns false and that grant is deactivated in the resulting
table (lazy expiry). -/
theorem claim_C6 (grants : List GrantRow) (kid cid : String) (now : Nat)
    (hk : strFalsy kid = false) (hc : strFalsy cid = false)
    (hwf : GrantsWf grants) :
    ((AuthEngine.check_authorization grants kid cid now).1 = true ↔
      ∃ r ∈ grants, r.keyId = kid ∧ r.callerId = cid ∧ r.isActive = true ∧
        now ≤ r.expiresAt) ∧
    (∀ r ∈ grants, r.keyId = kid → r.callerId = cid → r.isActive = true →
      r.expiresAt < now →
      (AuthEngine.check_authorization grants kid cid now).1 = false ∧
      ∀ r' ∈ (AuthEngine.check_authorization grants kid cid now).2,
        r'.grantId = r.grantId → r'.isActive = false) := by
  constructor
  · constructor
    · intro h
      exact hasValidGrant_iff.mp (hasValidGrant_of_check_true h)
    · rintro ⟨r, hr, h1, h2, h3, h4⟩
      unfold AuthEngine.check_authorization
      simp only [hk, hc, Bool.or_self, Bool.false_eq_true, if_false]
      rcases hfind : AuthEngine.findActive grants kid cid with _ | g
      · exfalso
        unfold AuthEngine.findActive at hfind
        have := List.find?_eq_none.mp hfind r hr
        simp [h1, h2, h3] at this
      · have hmem := List.mem_of_find?_eq_some hfind
        have hp := List.find?_some hfind
        simp only [Bool.and_eq_true, beq_iff_eq] at hp
        have hge : g = r := grantsWf_pair_eq hwf hmem hr (hp.1.1.trans h1.symm).symm.symm
          (by rw [hp.1.2, h2])
        subst hge
        have : g.isExpired now = false := by
          simp [GrantRow.isExpired]
          omega
        simp [this]
  · intro r hr h1 h2 h3 h4
    unfold AuthEngine.check_authorization
    simp only [hk, hc, Bool.or_self, Bool.false_eq_true, if_false]
    rcases hfind : AuthEngine.findActive grants kid cid with _ | g
    · exfalso
      unfold AuthEngine.findActive at hfind
      have := List.find?_eq_none.mp hfind r hr
      simp [h1, h2, h3] at this
    · have hmem := List.mem_of_find?_eq_some hfind
      have hp := List.find?_some hfind
      simp only [Bool.and_eq_true, beq_iff_eq] at hp
      have hge : g = r := grantsWf_pair_eq hwf hmem hr (hp.1.1.trans h1.symm).symm.symm
        (by rw [hp.1.2, h2])
      subst hge
      have hexp : g.isExpired now = true := by
        simp [GrantRow.isExpired]
        omega
      simp only [hexp, if_true]
      refine ⟨by trivial, ?_⟩
      intro r' hr' hid
      rcases List.mem_map.mp hr' with ⟨a, ha, hfa⟩
      by_cases hcase : (a.grantId == g.grantId) = true
      · rw [if_pos hcase] at hfa
        rw [← hfa]
      · rw [if_neg (by simpa using hcase)] at hfa
        exfalso
        apply (by simpa using hcase : ¬ a.grantId = g.grantId)
        rw [← hfa] at hid
        exact hid

/-- Witness for C6 at a concrete store: the valid-grant case authorizes. -/
theorem claim_C6_witness :
    ((AuthEngine.check_authorization [wGrant] "k1" "coral_c1" 5).1 = true ↔
      ∃ r ∈ [wGrant], r.keyId = "k1" ∧ r.callerId = "coral_c1" ∧
        r.isActive = true ∧ 5 ≤ r.expiresAt) ∧
    (∀ r ∈ [wGrant], r.keyId = "k1" → r.callerId = "coral_c1" →
      r.isActive = true → r.expiresAt < 5 →
      (AuthEngine.check_authorization [wGrant] "k1" "coral_c1" 5).1 = false ∧
      ∀ r' ∈ (AuthEngine.check_authorization [wGrant] "k1" "coral_c1" 5).2,
        r'.grantId = r.grantId → r'.isActive = false) :=
  claim_C6 [wGrant] "k1" "coral_c1" 5 (by decide) (by decide)
    (by simp [GrantsWf])

/-- A row update that does not touch the key/caller columns preserves
pair-uniqueness. -/
lemma grantsWf_map {g : List GrantRow} (f : GrantRow → GrantRow)
    (hk : ∀ a, (f a).keyId = a.keyId) (hc : ∀ a, (f a).callerId = a.callerId)
    (h : GrantsWf g) : GrantsWf (g.map f) := by
  rw [GrantsWf, List.pairwise_map]
  refine h.imp ?_
  intro a b hab hcon
  rw [hk, hk, hc, hc] at hcon
  exact hab hcon

lemma grantsWf_deactivate {g : List GrantRow} (gid : String)
    (h : GrantsWf g) : GrantsWf (AuthEngine.deactivateGrant g gid) := by
  refine grantsWf_map _ ?_ ?_ h <;> intro a <;> dsimp <;> split <;> rfl

/-- A conditional soft-delete preserves pair-uniqueness. -/
lemma grantsWf_condDeactivate (g : List GrantRow) (p : GrantRow → Bool)
    (h : GrantsWf g) :
    GrantsWf (g.map (fun r => if p r then { r with isActive := false } else r)) := by
  refine grantsWf_map _ ?_ ?_ h <;> intro a <;> dsimp <;> split <;> rfl

/-- Inversion of a successful `create_grant`. -/
lemma create_grant_ok_eq {g : List GrantRow} {kid cid : String}
    {perms : List (String × PVal)} {expiresAt now : Nat} {ownerId : String}
    {freshGid : String} {allowPast : Bool} {gid : String} {g' : List GrantRow}
    (h : AuthEngine.create_grant g kid cid perms expiresAt now ownerId
          freshGid allowPast = .ok (gid, g')) :
    gid = freshGid ∧
    g' = (g.filter (fun r =>
          !(r.grantId == freshGid || (r.keyId == kid && r.callerId == cid)))) ++
        [{ grantId := freshGid, keyId := kid, callerId := cid,
           permissions := perms, createdAt := now, expiresAt := expiresAt,
           isActive := true, grantedBy := ownerId }] := by
  unfold AuthEngine.create_grant at h
  repeat' split at h
  all_goals try exact Except.noConfusion h
  simp only [Except.ok.injEq, Prod.mk.injEq] at h
  exact ⟨h.1.symm, h.2.symm⟩

/-- C5: pair-uniqueness of the `access_grants` table — at most one row
(hence at most one active grant) per `(credentialId, callerId)` pair — is
preserved by every Grant-Store operation; and a successful `createGrant`
leaves exactly one active grant for its pair (the replacement semantics of
`INSERT OR REPLACE`). -/
theorem claim_C5 :
    (∀ g g' : List GrantRow, GrantsWf g → GrantOp g g' → GrantsWf g') ∧
    (∀ (g : List GrantRow) (kid cid : String) (perms : List (String × PVal))
        (expiresAt now : Nat) (ownerId freshGid : String) (allowPast : Bool)
        (gid : String) (g' : List GrantRow),
      AuthEngine.create_grant g kid cid perms expiresAt now ownerId freshGid
          allowPast = .ok (gid, g') →
      (g'.filter (fun r =>
          r.keyId == kid && r.callerId == cid && r.isActive)).length = 1) := by
  constructor
  · intro g g' hwf hop
    cases hop with
    | create h =>
      obtain ⟨-, hg'⟩ := create_grant_ok_eq h
      subst hg'
      rw [GrantsWf, List.pairwise_append]
      refine ⟨List.Pairwise.sublist (List.filter_sublist g) hwf,
        List.pairwise_singleton _ _, ?_⟩
      intro a ha b hb hcon
      rcases List.mem_filter.mp ha with ⟨-, hpa⟩
      rcases List.mem_singleton.mp hb with rfl
      simp only [Bool.not_eq_true', Bool.or_eq_false_iff, Bool.and_eq_false_iff,
        beq_eq_false_iff_ne] at hpa
      rcases hpa.2 with hx | hx
      · exact hx hcon.1
      · exact hx hcon.2
    | checkAuth kid cid now =>
      unfold AuthEngine.check_authorization
      repeat' split
      all_goals
        first
        | exact hwf
        | exact grantsWf_deactivate _ hwf
    | getGrant kid cid now =>
      unfold AuthEngine.get_grant
      repeat' split
      all_goals
        first
        | exact hwf
        | exact grantsWf_deactivate _ hwf
    | revokeOne h =>
      unfold AuthEngine.revoke_grant at h
      repeat' split at h
      all_goals try exact Except.noConfusion h
      injection h with h2
      rw [← h2]
      exact grantsWf_deactivate _ hwf
    | revokeForKey kid ownerId =>
      unfold AuthEngine.revoke_grants_for_key
      split
      · exact hwf
      · exact grantsWf_condDeactivate _ _ hwf
    | cleanup now =>
      unfold AuthEngine.cleanup_expired_grants
      exact grantsWf_condDeactivate _ _ hwf
    | deactivate gid =>
      exact grantsWf_deactivate _ hwf
  · intro g kid cid perms expiresAt now ownerId freshGid allowPast gid g' h
    obtain ⟨-, hg'⟩ := create_grant_ok_eq h
    subst hg'
    rw [List.filter_append]
    have h1 : ((g.filter (fun r =>
        !(r.grantId == freshGid || (r.keyId == kid && r.callerId == cid)))).filter
          (fun r => r.keyId == kid && r.callerId == cid && r.isActive)) = [] := by
      rw [List.filter_eq_nil_iff]
      intro a ha
      rcases List.mem_filter.mp ha with ⟨-, hpa⟩
      simp only [Bool.not_eq_true', Bool.or_eq_false_iff, Bool.and_eq_false_iff,
        beq_eq_false_iff_ne] at hpa
      simp only [Bool.and_eq_true, beq_iff_eq, not_and]
      intro h1 h2
      rcases hpa.2 with hx | hx
      · exact absurd h1.1 hx
      · exact absurd h1.2 hx
    rw [h1]
    simp

/-- The grant row produced by the witness `create_grant` call below. -/
def wGrant2 : GrantRow :=
  { grantId := "g2", keyId := "k1", callerId := "coral_c2",
    permissions := [("max_calls_per_day", PVal.int 10)],
    createdAt := 0, expiresAt := 100, isActive := true,
    grantedBy := "coral_o1" }

/-- Witness for C5: a concrete lazy-expiry check preserves pair-uniqueness,
and a concrete `create_grant` leaves exactly one active grant for its pair. -/
theorem claim_C5_witness :
    GrantsWf (AuthEngine.check_authorization [wGrant] "k1" "coral_c1" 5).2 ∧
    (([wGrant, wGrant2].filter (fun r =>
        r.keyId == "k1" && r.callerId == "coral_c2" && r.isActive)).length = 1) :=
  ⟨claim_C5.1 [wGrant] _ (by simp [GrantsWf])
      (GrantOp.checkAuth "k1" "coral_c1" 5),
   claim_C5.2 [wGrant] "k1" "coral_c2" [("max_calls_per_day", PVal.int 10)]
      100 0 "coral_o1" "g2" false "g2" [wGrant, wGrant2] (by rfl)⟩

lemma validate_coral_session_ok_inv {s c : String}
    (h : validate_coral_session s none = .ok c) :
    c = s ∧ strFalsy s = false := by
  unfold validate_coral_session at h
  split at h
  · exact Except.noConfusion h
  · split at h
    · exact Except.noConfusion h
    · injection h with h2
      rename_i hcond _
      constructor
      · exact h2.symm
      · simp only [Bool.or_eq_true, not_or, Bool.not_eq_true] at hcond
        exact hcond.1

lemma revoke_key_manager_ok_inv {keys : List KeyRow} {kid ownerId : String}
    {keys' : List KeyRow}
    (h : KeyManager.revoke_key keys kid ownerId = .ok keys') :
    KeyStore.verify_key_ownership keys kid ownerId = true ∧
    keys' = keys.map (fun k =>
      if k.keyId == kid then { k with isActive := false } else k) := by
  unfold KeyManager.revoke_key at h
  split at h
  · exact Except.noConfusion h
  · split at h
    · exact Except.noConfusion h
    · rename_i hver
      split at h
      · exact Except.noConfusion h
      · rename_i x heq
        injection h with h2
        unfold KeyStore.deactivate_key at heq
        rw [Prod.mk.injEq] at heq
        refine ⟨by simpa using hver, ?_⟩
        rw [← h2, ← heq.2]

/-- C7: after a successful owner `revoke_key`, the credential's row is
inactive, every grant on the credential is deactivated, and
`checkAuthorized` returns false for every caller at every later time
(provided every grant on a stored credential was granted by that
credential's owner, which `grant_access` guarantees). -/
theorem claim_C7 (st : SysState) (kid ownerSession : String) (now : Nat)
    (hkid : strFalsy kid = false)
    (hOwn : GrantOwnersMatch st)
    (h : (SageMCP.revoke_key st kid ownerSession now).1 = true) :
    (∀ k ∈ (SageMCP.revoke_key st kid ownerSession now).2.keys,
      k.keyId = kid → k.isActive = false) ∧
    (∀ g ∈ (SageMCP.revoke_key st kid ownerSession now).2.grants,
      g.keyId = kid → g.isActive = false) ∧
    (∀ (c : String) (later : Nat),
      (AuthEngine.check_authorization
        (SageMCP.revoke_key st kid ownerSession now).2.grants kid c later).1 =
        false) := by
  rcases hv : validate_coral_session ownerSession none with e | ownerId
  · unfold SageMCP.revoke_key at h
    rw [hv] at h
    exact absurd h (by simp)
  obtain ⟨hoeq, hosf⟩ := validate_coral_session_ok_inv hv
  rcases hrk : KeyManager.revoke_key st.keys kid ownerId with e | keys'
  · have hfalse : SageMCP.revoke_key st kid ownerSession now = (false, st) := by
      unfold SageMCP.revoke_key
      simp only [hv, hrk]
    rw [hfalse] at h
    exact absurd h (by simp)
  obtain ⟨hver, hkeys⟩ := revoke_key_manager_ok_inv hrk
  rcases hrg : AuthEngine.revoke_grants_for_key st.grants kid ownerId
    with ⟨cnt, grants'⟩
  have hof : strFalsy ownerId = false := by rw [hoeq]; exact hosf
  have heq : SageMCP.revoke_key st kid ownerSession now =
      (true, tryLog { st with keys := keys', grants := grants' }
        (AuditLog.proxyCallParams ownerId kid "DELETE" "/sage/revoke_key"
          0 0 200 none) now) := by
    unfold SageMCP.revoke_key
    simp only [hv, hrk, hrg]
  have hgr' : grants' = st.grants.map (fun r =>
      if r.keyId == kid && r.grantedBy == ownerId && r.isActive then
        { r with isActive := false } else r) := by
    unfold AuthEngine.revoke_grants_for_key at hrg
    rw [if_neg (by simp [hkid, hof])] at hrg
    rw [Prod.mk.injEq] at hrg
    exact hrg.2.symm
  obtain ⟨k0, hk0mem, hk0⟩ : ∃ k0 ∈ st.keys,
      k0.keyId = kid ∧ k0.ownerId = ownerId := by
    unfold KeyStore.verify_key_ownership at hver
    rcases List.any_eq_true.mp hver with ⟨k0, hmem, hp⟩
    simp only [Bool.and_eq_true, beq_iff_eq] at hp
    exact ⟨k0, hmem, hp⟩
  rw [heq]
  have hkeysConc : ∀ k ∈ keys', k.keyId = kid → k.isActive = false := by
    intro k hk hkk
    rw [hkeys] at hk
    rcases List.mem_map.mp hk with ⟨a, ha, hfa⟩
    by_cases hc : (a.keyId == kid) = true
    · rw [if_pos hc] at hfa
      rw [← hfa]
    · rw [if_neg (by simpa using hc)] at hfa
      exact absurd (hfa ▸ hkk) (by simpa using hc)
  have hgrConc : ∀ g ∈ grants', g.keyId = kid → g.isActive = false := by
    intro g hg hgk
    rw [hgr'] at hg
    rcases List.mem_map.mp hg with ⟨a, ha, hfa⟩
    by_cases hc : (a.keyId == kid && a.grantedBy == ownerId && a.isActive) = true
    · rw [if_pos hc] at hfa
      rw [← hfa]
    · rw [if_neg (by simpa using hc)] at hfa
      subst hfa
      have hgb : a.grantedBy = k0.ownerId := hOwn a ha k0 hk0mem (hgk.trans hk0.1.symm)
      simp only [Bool.and_eq_true, beq_iff_eq, not_and] at hc
      by_contra hact
      rw [Bool.not_eq_false] at hact
      exact (hc ⟨hgk, hgb.trans hk0.2⟩) hact
  refine ⟨?_, ?_, ?_⟩
  · intro k hk
    rw [tryLog_keys] at hk
    exact hkeysConc k hk
  · intro g hg
    rw [tryLog_grants] at hg
    exact hgrConc g hg
  · intro c later
    rw [tryLog_grants]
    unfold AuthEngine.check_authorization
    split
    · rfl
    · rcases hfind : AuthEngine.findActive grants' kid c with _ | g
      · rfl
      · exfalso
        have hmem := List.mem_of_find?_eq_some hfind
        have hp := List.find?_some hfind
        simp only [Bool.and_eq_true, beq_iff_eq] at hp
        have := hgrConc g hmem hp.1.1
        rw [hp.2] at this
        simp at this

/-- Witness for C7 at a concrete state: after the owner revokes `k1`, the
key row is inactive, the grant is deactivated, and no caller is authorized. -/
theorem claim_C7_witness :
    (∀ k ∈ (SageMCP.revoke_key wState "k1" "coral_o1" 5).2.keys,
      k.keyId = "k1" → k.isActive = false) ∧
    (∀ g ∈ (SageMCP.revoke_key wState "k1" "coral_o1" 5).2.grants,
      g.keyId = "k1" → g.isActive = false) ∧
    (∀ (c : String) (later : Nat),
      (AuthEngine.check_authorization
        (SageMCP.revoke_key wState "k1" "coral_o1" 5).2.grants "k1" c
        later).1 = false) :=
  claim_C7 wState "k1" "coral_o1" 5 (by decide)
    (by
      intro g hg k hk hkk
      simp only [wState, wGrant, wKey, List.mem_singleton] at hg hk
      subst hg
      subst hk
      rfl)
    (by decide)

/-- `UsageCounter.increment_usage` leaves the row key untouched and bumps
the call count by one. -/
lemma usageRow_increment_fields (r : UsageRow) (s : Nat) (rt : ℚ) :
    (Policy.UsageRow.increment r s rt).keyId = r.keyId ∧
    (Policy.UsageRow.increment r s rt).callerId = r.callerId ∧
    (Policy.UsageRow.increment r s rt).date = r.date ∧
    (Policy.UsageRow.increment r s rt).callCount = r.callCount + 1 := by
  refine ⟨rfl, rfl, rfl, rfl⟩

/-- After `increment_usage`, the current usage for the pair is one more. -/
lemma get_current_usage_increment (u : List UsageRow) (kid cid : String)
    (s : Nat) (rt : ℚ) (today now : Nat)
    (hk : strFalsy kid = false) (hc : strFalsy cid = false) :
    Policy.get_current_usage
        (Policy.increment_usage u kid cid s rt today now) kid cid today =
      Policy.get_current_usage u kid cid today + 1 := by
  unfold Policy.increment_usage Policy.get_current_usage
  simp only [hk, hc, Bool.or_self, Bool.false_eq_true, if_false]
  by_cases hany : (u.any fun r =>
      r.keyId == kid && r.callerId == cid && r.date == today) = true
  · rw [if_pos hany]
    have hpf : ∀ r : UsageRow,
        ((fun r : UsageRow => r.keyId == kid && r.callerId == cid && r.date == today) ∘
          (fun r : UsageRow =>
            if r.keyId == kid && r.callerId == cid && r.date == today then
              Policy.UsageRow.increment r s rt
            else r)) r =
        (fun r : UsageRow => r.keyId == kid && r.callerId == cid && r.date == today) r := by
      intro r
      by_cases hr : (r.keyId == kid && r.callerId == cid && r.date == today) = true
      · rw [Function.comp_apply, if_pos hr]
        rcases usageRow_increment_fields r s rt with ⟨e1, e2, e3, -⟩
        rw [e1, e2, e3]
      · rw [Function.comp_apply, if_neg hr]
    rw [List.find?_map, funext hpf]
    rcases hfind : u.find? (fun r =>
        r.keyId == kid && r.callerId == cid && r.date == today) with _ | r0
    · exfalso
      rcases List.any_eq_true.mp hany with ⟨r, hr, hp⟩
      exact (List.find?_eq_none.mp hfind r hr) hp
    · have hp0 := List.find?_some hfind
      rw [hfind]
      simp only [Option.map_some']
      rw [if_pos hp0]
      exact (usageRow_increment_fields r0 s rt).2.2.2
  · rw [if_neg hany]
    rw [List.find?_append]
    have hnone : u.find? (fun r =>
        r.keyId == kid && r.callerId == cid && r.date == today) = none := by
      rw [List.find?_eq_none]
      intro r hr hp
      exact hany (List.any_eq_true.mpr ⟨r, hr, hp⟩)
    rw [hnone]
    simp [Policy.UsageRow.increment]

/-- `check_rate_limit` with an integer limit: allowed iff the limit is
positive and today's count is strictly below it. -/
lemma check_rate_limit_int {u : List UsageRow} {kid cid : String}
    {g : GrantRow} {today : Nat} {n : ℤ}
    (hk : strFalsy kid = false) (hc : strFalsy cid = false)
    (hmax : g.getMaxCallsPerDay = PVal.int n) :
    Policy.check_rate_limit u kid cid g today =
      (decide (0 < n) && decide ((Policy.get_current_usage u kid cid today : ℤ) < n)) := by
  unfold Policy.check_rate_limit
  simp only [hk, hc, Bool.or_self, Bool.false_eq_true, if_false, hmax,
    Policy.pvalLeZero, Policy.pvalNatLt]
  by_cases h0 : (0 : ℤ) < n
  · rw [decide_eq_false (by omega : ¬ n ≤ 0)]
    simp [h0]
  · rw [decide_eq_true (by omega : n ≤ 0)]
    simp [h0]

/-- `check_rate_limit` with a non-integral numeric limit: compared
numerically (the `isinstance(int)` guard of `create_grant` is not
re-checked here). -/
lemma check_rate_limit_num {u : List UsageRow} {kid cid : String}
    {g : GrantRow} {today : Nat} {q : ℚ}
    (hk : strFalsy kid = false) (hc : strFalsy cid = false)
    (hmax : g.getMaxCallsPerDay = PVal.num q) :
    Policy.check_rate_limit u kid cid g today =
      (decide (0 < q) &&
       decide ((Policy.get_current_usage u kid cid today : ℚ) < q)) := by
  unfold Policy.check_rate_limit
  simp only [hk, hc, Bool.or_self, Bool.false_eq_true, if_false, hmax,
    Policy.pvalLeZero, Policy.pvalNatLt]
  by_cases h0 : (0 : ℚ) < q
  · rw [decide_eq_false (not_le.mpr h0)]
    simp [h0]
  · rw [decide_eq_true (not_lt.mp h0)]
    simp [h0]

/-- `check_rate_limit` with a non-numeric limit: the `TypeError` is caught
and the check denies. -/
lemma check_rate_limit_str {u : List UsageRow} {kid cid : String}
    {g : GrantRow} {today : Nat} {s : String}
    (hmax : g.getMaxCallsPerDay = PVal.str s) :
    Policy.check_rate_limit u kid cid g today = false := by
  unfold Policy.check_rate_limit
  split
  · rfl
  · simp only [hmax, Policy.pvalLeZero]

/-- The strictly sequential caller of spec §8: with an integer limit `N`,
an attempt is allowed exactly while today's count is below `N`. -/
lemma rateAttempts_spec (g : GrantRow) (kid cid : String) (today now : Nat)
    {N : ℤ} (hk : strFalsy kid = false) (hc : strFalsy cid = false)
    (hmax : g.getMaxCallsPerDay = PVal.int N) :
    ∀ (n : Nat) (u : List UsageRow),
      Policy.rateAttempts g kid cid today now n u =
        List.replicate
          (min n (N.toNat - Policy.get_current_usage u kid cid today)) true ++
        List.replicate
          (n - (N.toNat - Policy.get_current_usage u kid cid today)) false := by
  intro n
  induction n with
  | zero => intro u; simp [Policy.rateAttempts]
  | succ m ih =>
    intro u
    have hchk := @check_rate_limit_int u kid cid g today N hk hc hmax
    by_cases hb : (0 < N ∧ (Policy.get_current_usage u kid cid today : ℤ) < N)
    · have hbt : Policy.check_rate_limit u kid cid g today = true := by
        rw [hchk]
        simp [hb.1, hb.2]
      simp only [Policy.rateAttempts, hbt, if_true]
      rw [ih (Policy.increment_usage u kid cid 0 0 today now),
        get_current_usage_increment u kid cid 0 0 today now hk hc]
      have h3 : min (m + 1) (N.toNat - Policy.get_current_usage u kid cid today) =
          min m (N.toNat - (Policy.get_current_usage u kid cid today + 1)) + 1 := by
        omega
      have h4 : (m + 1) - (N.toNat - Policy.get_current_usage u kid cid today) =
          m - (N.toNat - (Policy.get_current_usage u kid cid today + 1)) := by
        omega
      rw [h3, h4, List.replicate_succ]
      simp [List.cons_append]
    · have hbt : Policy.check_rate_limit u kid cid g today = false := by
        rw [hchk]
        rcases not_and_or.mp hb with h | h <;> simp [h]
      simp only [Policy.rateAttempts, hbt, Bool.false_eq_true, if_false]
      rw [ih u]
      have hK : N.toNat - Policy.get_current_usage u kid cid today = 0 := by
        omega
      rw [hK]
      simp [List.replicate_succ]

/-- C2 (amended): `check_rate_limit` returns true iff today's `callCount`
for the pair is strictly less than the grant's `maxCallsPerDay` and that
limit is positive; a missing or non-numeric (`TypeError`) limit always
denies, and a non-positive limit always denies — but a positive
**non-integral** numeric limit is compared numerically rather than denied;
with a positive integer limit `N` and a strictly sequential caller, calls
`1..N` are allowed and call `N+1` is blocked. -/
theorem claim_C2 (u : List UsageRow) (kid cid : String) (g : GrantRow)
    (today now : Nat)
    (hk : strFalsy kid = false) (hc : strFalsy cid = false) :
    (∀ N : ℤ, g.getMaxCallsPerDay = PVal.int N →
      (Policy.check_rate_limit u kid cid g today = true ↔
        0 < N ∧ (Policy.get_current_usage u kid cid today : ℤ) < N)) ∧
    (g.permissions.lookup "max_calls_per_day" = none →
      Policy.check_rate_limit u kid cid g today = false) ∧
    (∀ q : ℚ, g.getMaxCallsPerDay = PVal.num q →
      (Policy.check_rate_limit u kid cid g today = true ↔
        0 < q ∧ (Policy.get_current_usage u kid cid today : ℚ) < q)) ∧
    (∀ s : String, g.getMaxCallsPerDay = PVal.str s →
      Policy.check_rate_limit u kid cid g today = false) ∧
    (∀ N : ℤ, 0 < N → g.getMaxCallsPerDay = PVal.int N →
      Policy.get_current_usage u kid cid today = 0 →
      Policy.rateAttempts g kid cid today now (N.toNat + 1) u =
        List.replicate N.toNat true ++ [false]) := by
  refine ⟨?_, ?_, ?_, ?_, ?_⟩
  · intro N hmax
    rw [check_rate_limit_int hk hc hmax]
    simp
  · intro hnone
    have hmax : g.getMaxCallsPerDay = PVal.int 0 := by
      simp [GrantRow.getMaxCallsPerDay, hnone]
    rw [check_rate_limit_int hk hc hmax]
    simp
  · intro q hmax
    rw [check_rate_limit_num hk hc hmax]
    simp
  · intro s hmax
    exact check_rate_limit_str hmax
  · intro N hN hmax husage
    rw [rateAttempts_spec g kid cid today now hk hc hmax (N.toNat + 1) u, husage]
    have h1 : min (N.toNat + 1) (N.toNat - 0) = N.toNat := by omega
    have h2 : (N.toNat + 1) - (N.toNat - 0) = 1 := by omega
    rw [h1, h2]
    rfl

/-- A grant whose `max_calls_per_day` is the non-integral float 2.5. -/
def cexGrant : GrantRow :=
  { grantId := "g1", keyId := "k1", callerId := "coral_c1",
    permissions := [("max_calls_per_day", PVal.num (mkRat 5 2))],
    createdAt := 0, expiresAt := 100, isActive := true,
    grantedBy := "coral_o1" }

/-- Counterexample to C2 as stated: with `max_calls_per_day = 2.5` — not
an integer — and zero usage, `check_rate_limit` returns **true** instead of
always denying (`check_rate_limit` only guards `max_calls <= 0`, never
re-checking `isinstance(int)`). -/
theorem claim_C2_counterexample :
    Policy.check_rate_limit [] "k1" "coral_c1" cexGrant 0 = true ∧
    (∀ z : ℤ, cexGrant.getMaxCallsPerDay ≠ PVal.int z) ∧
    Policy.get_current_usage [] "k1" "coral_c1" 0 = 0 := by
  refine ⟨rfl, ?_, rfl⟩
  intro z h
  have he : cexGrant.getMaxCallsPerDay = PVal.num (mkRat 5 2) := rfl
  rw [he] at h
  exact PVal.noConfusion h

/-- Witness for C2: with limit 10 and a fresh day, eleven strictly
sequential attempts yield ten allowed calls and one blocked call. -/
theorem claim_C2_witness :
    Policy.rateAttempts wGrant "k1" "coral_c1" 0 0 11 [] =
      List.replicate 10 true ++ [false] :=
  (claim_C2 [] "k1" "coral_c1" wGrant 0 0 (by decide) (by decide)).2.2.2.2 10
    (by decide) (by rfl) (by rfl)

/-- C4: for every plaintext accepted by `store_key`, an immediate
`_retrieve_key_for_proxy` on the returned id (the credential is active)
returns exactly the original plaintext, given the cipher's authenticated
round-trip contract and a fresh uuid. -/
theorem claim_C4 (cipher : Cipher) (keys : List KeyRow)
    (keyName apiKey ownerId coralSessionId freshId : String) (now : Nat)
    (kid : String) (keys' : List KeyRow)
    (hrt : ∀ s, cipher.dec (cipher.enc s) = some s)
    (hfresh : ∀ k ∈ keys, k.keyId ≠ freshId)
    (hok : KeyManager.store_key cipher keys keyName apiKey ownerId
      coralSessionId freshId now = .ok (kid, keys')) :
    kid = freshId ∧
    KeyManager.retrieve_key_for_proxy cipher keys' kid = .ok apiKey := by
  have hinv : kid = freshId ∧ keys' = keys ++
      [{ keyId := freshId, ownerId := ownerId, keyName := keyName,
         encryptedKey := cipher.enc apiKey, createdAt := now,
         lastRotated := now, isActive := true,
         coralSessionId := coralSessionId }] := by
    unfold KeyManager.store_key at hok
    repeat' split at hok
    all_goals try exact Except.noConfusion hok
    simp only [] at hok
    split at hok
    all_goals try exact Except.noConfusion hok
    rename_i x heq
    unfold KeyStore.insert_key at heq
    split at heq
    · exact Except.noConfusion heq
    · split at heq
      · rw [Except.ok.injEq, Prod.mk.injEq] at heq
        exact absurd heq.1 (by simp)
      · rw [Except.ok.injEq, Prod.mk.injEq] at heq
        rw [Except.ok.injEq, Prod.mk.injEq] at hok
        refine ⟨hok.1.symm, ?_⟩
        rw [← hok.2, ← heq.2]
  obtain ⟨hkid, hkeys⟩ := hinv
  subst hkid hkeys
  refine ⟨rfl, ?_⟩
  unfold KeyManager.retrieve_key_for_proxy KeyStore.get_key
  rw [List.find?_append]
  have hnone : keys.find? (fun k => k.keyId == kid) = none := by
    rw [List.find?_eq_none]
    intro k hk
    simpa using hfresh k hk
  rw [hnone]
  simp [hrt apiKey]

/-- Witness for C4: a concrete store/retrieve round trip. -/
theorem claim_C4_witness :
    ("k1" : String) = "k1" ∧
    KeyManager.retrieve_key_for_proxy idCipher [wKey] "k1" = .ok "secret-123" :=
  claim_C4 idCipher [] "llm-key" "secret-123" "coral_o1" "coral_o1" "k1" 0
    "k1" [wKey] (fun s => rfl) (by simp) (by rfl)

/-- C8 (amended): the core's identity validation accepts a session
identifier iff it is non-empty, not whitespace-only, and starts with
`coral_` — so a non-empty identifier without the `coral_` marker is
rejected on format alone (only caller ids stored inside grants are merely
required to be non-blank). -/
theorem claim_C8 (s : String) :
    validate_coral_session s none = .ok s ↔
      strFalsy s = false ∧ strBlank s = false ∧
        strStartsWith "coral_" s = true := by
  constructor
  · intro h
    unfold validate_coral_session at h
    split at h
    · exact Except.noConfusion h
    · split at h
      · exact Except.noConfusion h
      · rename_i hcond1 hcond2
        simp only [Bool.or_eq_true, not_or, Bool.not_eq_true] at hcond1
        refine ⟨hcond1.1, hcond1.2, by simpa using hcond2⟩
  · rintro ⟨h1, h2, h3⟩
    unfold validate_coral_session
    rw [if_neg (by simp [h1, h2]), if_neg (by simp [h3])]
    rfl

/-- Counterexample to C8 as stated: the non-empty identifier `abc` is
rejected by the identity validation purely because of its format. -/
theorem claim_C8_counterexample :
    validate_coral_session "abc" none =
      .error (.valueError "Invalid session ID format: must start with coral_") ∧
    strFalsy "abc" = false :=
  ⟨rfl, rfl⟩

/-- C9: in `list_logs` the effective limit always lies in `[1, 1000]`,
defaults to 100 when absent (and resets to 100 when out of range, so a
requested limit above 1000 yields at most 1000 rows), and a start/end date
that fails to parse is ignored rather than failing the operation: for
every behaviour of the external date parser the call still succeeds, with
at most 1000 rows. -/
theorem claim_C9 (st : SysState) (kid : String) (filters : SageMCP.Filters)
    (ownerSession : String) (parseDate : String → Option Nat)
    (h1 : strFalsy ownerSession = false) (h2 : strBlank ownerSession = false)
    (h3 : strStartsWith "coral_" ownerSession = true)
    (hkid : strFalsy kid = false)
    (hver : KeyManager.verify_key_ownership st.keys kid ownerSession = true) :
    (1 ≤ SageMCP.effectiveLimit filters.limit ∧
     SageMCP.effectiveLimit filters.limit ≤ 1000) ∧
    (filters.limit = none → SageMCP.effectiveLimit filters.limit = 100) ∧
    (∀ z : ℤ, filters.limit = some (PVal.int z) → 1000 < z →
      SageMCP.effectiveLimit filters.limit = 100) ∧
    (∃ rows : List LogRow,
      SageMCP.list_logs st kid filters ownerSession parseDate = .ok rows ∧
      rows.length ≤ 1000) := by
  have hbounds : 1 ≤ SageMCP.effectiveLimit filters.limit ∧
      SageMCP.effectiveLimit filters.limit ≤ 1000 := by
    rcases hL : filters.limit with _ | v
    · simp [SageMCP.effectiveLimit]
    · rcases v with z | q | s
      · simp only [SageMCP.effectiveLimit]
        by_cases hz : (z ≤ 0 ∨ 1000 < z)
        · rw [if_pos (by simpa using hz)]
          omega
        · rcases not_or.mp hz with ⟨hz1, hz2⟩
          rw [if_neg (by simpa using hz)]
          omega
      · simp [SageMCP.effectiveLimit]
      · simp [SageMCP.effectiveLimit]
  refine ⟨hbounds, ?_, ?_, ?_⟩
  · intro h
    rw [h]
    rfl
  · intro z h hz
    rw [h]
    simp only [SageMCP.effectiveLimit]
    rw [if_pos (by simp [hz])]
  · unfold SageMCP.list_logs
    rw [validate_coral_session_ok h1 h2 h3]
    simp only [hver, Bool.not_true, Bool.false_eq_true, if_false]
    unfold AuditLog.get_logs_for_key
    rw [if_neg (by simp [hkid, h1]),
      if_neg (by simp only [Bool.or_eq_true, decide_eq_true_eq, not_or]; omega)]
    refine ⟨_, rfl, ?_⟩
    calc (((st.logs.filter _).mergeSort _).take
            (SageMCP.effectiveLimit filters.limit).toNat).length
        ≤ (SageMCP.effectiveLimit filters.limit).toNat := by
          rw [List.length_take]; omega
      _ ≤ 1000 := by omega

/-- Witness for C9 at a concrete state: an oversized limit still succeeds
with at most 1000 rows. -/
theorem claim_C9_witness :
    (1 ≤ SageMCP.effectiveLimit (some (PVal.int 5000)) ∧
     SageMCP.effectiveLimit (some (PVal.int 5000)) ≤ 1000) ∧
    ((some (PVal.int 5000) : Option PVal) = none →
      SageMCP.effectiveLimit (some (PVal.int 5000)) = 100) ∧
    (∀ z : ℤ, (some (PVal.int 5000) : Option PVal) = some (PVal.int z) →
      1000 < z → SageMCP.effectiveLimit (some (PVal.int 5000)) = 100) ∧
    (∃ rows : List LogRow,
      SageMCP.list_logs wState "k1"
        { callerId := none, action := none, startDate := some "not-a-date",
          endDate := none, limit := some (PVal.int 5000) } "coral_o1"
        (fun _ => none) = .ok rows ∧
      rows.length ≤ 1000) :=
  claim_C9 wState "k1"
    { callerId := none, action := none, startDate := some "not-a-date",
      endDate := none, limit := some (PVal.int 5000) } "coral_o1"
    (fun _ => none) (by decide) (by decide) (by decide) (by decide) (by decide)

/-- C10: `verify_key_ownership` is true whenever a key row with the given
id and owner exists, with no condition on the `active` flag; consequently
the owner of a revoked (inactive) credential still passes the ownership
check in `grant_access`, which succeeds and installs a fresh active grant
on the revoked credential. -/
theorem claim_C10 (st : SysState) (kid owner caller : String)
    (perms : List (String × PVal)) (expiry : Nat) (freshGid : String)
    (now : Nat) (N : ℤ)
    (h1 : strFalsy owner = false) (h2 : strBlank owner = false)
    (h3 : strStartsWith "coral_" owner = true)
    (hkb : strBlank kid = false) (hcb : strBlank caller = false)
    (hperm : perms.lookup "max_calls_per_day" = some (PVal.int N))
    (hN : 0 < N) (hexp : 0 < expiry) :
    (∀ k ∈ st.keys, k.keyId = kid → k.ownerId = owner →
      KeyManager.verify_key_ownership st.keys kid owner = true) ∧
    ((∃ k ∈ st.keys, k.keyId = kid ∧ k.ownerId = owner ∧ k.isActive = false) →
      (SageMCP.grant_access st kid caller perms expiry owner freshGid now).1 =
        .ok true ∧
      ∃ g ∈ (SageMCP.grant_access st kid caller perms expiry owner freshGid
          now).2.grants,
        g.keyId = kid ∧ g.callerId = caller ∧ g.isActive = true) := by
  have hverOf : ∀ k ∈ st.keys, k.keyId = kid → k.ownerId = owner →
      KeyManager.verify_key_ownership st.keys kid owner = true := by
    intro k hk hkk hko
    unfold KeyManager.verify_key_ownership KeyStore.verify_key_ownership
    rw [if_neg (by simp [h2])]
    exact List.any_eq_true.mpr ⟨k, hk, by simp [hkk, hko]⟩
  refine ⟨hverOf, ?_⟩
  rintro ⟨k, hk, hkk, hko, -⟩
  have hver := hverOf k hk hkk hko
  have hcg : AuthEngine.create_grant st.grants kid caller perms (now + expiry)
      now owner freshGid false =
      .ok (freshGid,
        (st.grants.filter (fun r =>
          !(r.grantId == freshGid || (r.keyId == kid && r.callerId == caller)))) ++
        [{ grantId := freshGid, keyId := kid, callerId := caller,
           permissions := perms, createdAt := now, expiresAt := now + expiry,
           isActive := true, grantedBy := owner }]) := by
    unfold AuthEngine.create_grant
    rw [if_neg (by simp [hkb]), if_neg (by simp [hcb]), if_neg (by simp [h2]),
      if_neg (by simp; omega), if_neg (by simp [hperm]),
      if_neg (by simp [AuthEngine.isPosInt, hperm, hN])]
  have heq : SageMCP.grant_access st kid caller perms expiry owner freshGid now =
      (.ok true, tryLog { st with grants :=
          (st.grants.filter (fun r =>
            !(r.grantId == freshGid || (r.keyId == kid && r.callerId == caller)))) ++
          [{ grantId := freshGid, keyId := kid, callerId := caller,
             permissions := perms, createdAt := now, expiresAt := now + expiry,
             isActive := true, grantedBy := owner }] }
        (AuditLog.grantAccessParams owner kid caller
          (SageMCP.permsJsonSize perms)) now) := by
    unfold SageMCP.grant_access
    rw [validate_coral_session_ok h1 h2 h3]
    simp only [hver, Bool.not_true, Bool.false_eq_true, if_false, hperm,
      Option.isNone_some, AuthEngine.isPosInt, hcg]
    rw [if_neg (by simp [AuthEngine.isPosInt, hperm, hN])]
  rw [heq]
  refine ⟨rfl, ?_⟩
  rw [tryLog_grants]
  exact ⟨_, List.mem_append_right _ (List.mem_singleton.mpr rfl), rfl, rfl, rfl⟩

/-- Witness for C10: the owner of a revoked key still passes ownership and
re-grants access on it. -/
def wKeyRevoked : KeyRow :=
  { keyId := "k1", ownerId := "coral_o1", keyName := "llm-key",
    encryptedKey := "secret-123", createdAt := 0, lastRotated := 0,
    isActive := false, coralSessionId := "coral_o1" }

/-- State fixture for the C10 witness: one revoked key, no grants. -/
def wStateRevoked : SysState :=
  { keys := [wKeyRevoked], grants := [], usage := [], logs := [], nextLogId := 0 }

theorem claim_C10_witness :
    (∀ k ∈ wStateRevoked.keys, k.keyId = "k1" → k.ownerId = "coral_o1" →
      KeyManager.verify_key_ownership wStateRevoked.keys "k1" "coral_o1" = true) ∧
    ((∃ k ∈ wStateRevoked.keys, k.keyId = "k1" ∧ k.ownerId = "coral_o1" ∧
        k.isActive = false) →
      (SageMCP.grant_access wStateRevoked "k1" "coral_c1"
        [("max_calls_per_day", PVal.int 10)] 24 "coral_o1" "g2" 0).1 = .ok true ∧
      ∃ g ∈ (SageMCP.grant_access wStateRevoked "k1" "coral_c1"
          [("max_calls_per_day", PVal.int 10)] 24 "coral_o1" "g2" 0).2.grants,
        g.keyId = "k1" ∧ g.callerId = "coral_c1" ∧ g.isActive = true) :=
  claim_C10 wStateRevoked "k1" "coral_o1" "coral_c1"
    [("max_calls_per_day", PVal.int 10)] 24 "g2" 0 10 (by decide) (by decide)
    (by decide) (by decide) (by decide) (by rfl) (by decide) (by decide)
